import Mathlib

/-!
# IMU bias system models of hector_pose_estimation

A shallow embedding of `hector_pose_estimation_core/src/system/imu_model.cpp`:
the gyroscope bias model `GyroModel` and the accelerometer bias model
`AccelerometerModel`, with the hooks `init`, `getSystemNoise`, `prepareUpdate`,
`getDerivative` and `getStateJacobian`.

Conventions of the embedding.

* Scalars (`double` in the source) are the elements of an arbitrary ring `α`.
* A dynamically sized vector is a function `Nat → α` from the entry index, a
  matrix a function `Nat → Nat → α` from row and column index.  Fixed 3-vectors
  and 3x3 matrices are indexed by `Fin 3`.
* A sub-state pointer (`boost::shared_ptr`) is an `Option SubState`; a null
  pointer is `none`.  Every `->` or `*` applied to a pointer is a bind in
  `Option`, so that a hook returns `none` exactly when it dereferences a null
  pointer, and `some` of the output it leaves behind otherwise.
* A reference parameter written by a hook (`x_dot`, `A`, `Q`) is passed in with
  its prior content and returned with its new content.
* The model is passed to a hook as a value.  A hook that assigns a member
  (`init`, `prepareUpdate`) returns the model after the call; the other hooks
  assign no member and return their output only.
-/

namespace hector_pose_estimation

/-! ## Types of the state container used by the models -/

/-- The state vector type, also the type of its derivative `x_dot`. -/
abbrev StateVector (α : Type) := Nat → α

/-- The system matrix `A`, the linearisation of the dynamics. -/
abbrev SystemMatrix (α : Type) := Nat → Nat → α

/-- The process noise covariance `Q`. -/
abbrev NoiseVariance (α : Type) := Nat → Nat → α

/-- A fixed-size column vector with three entries. -/
abbrev ColumnVector3 (α : Type) := Fin 3 → α

/-- The type `State::RotationMatrix`: a 3x3 matrix, row index first. -/
abbrev RotationMatrix (α : Type) := Fin 3 → Fin 3 → α

/-- The bit mask returned by `State::getSystemStatus()`. -/
abbrev SystemStatus := Nat

/-- Modelled from the spec: the axis index `X` of the enum in `types.h`, which is
not part of the sources at hand ("one scalar per axis, X/Y/Z"). -/
def X : Fin 3 := 0

/-- Modelled from the spec: the axis index `Y` of the enum in `types.h`. -/
def Y : Fin 3 := 1

/-- Modelled from the spec: the axis index `Z` of the enum in `types.h`. -/
def Z : Fin 3 := 2

/-- Modelled from the spec: the index of the X axis inside the gyro bias block
(enum of `imu_model.h`, not part of the sources at hand). -/
def BIAS_GYRO_X : Fin 3 := 0

/-- Modelled from the spec: the index of the Y axis inside the gyro bias block. -/
def BIAS_GYRO_Y : Fin 3 := 1

/-- Modelled from the spec: the index of the Z axis inside the gyro bias block. -/
def BIAS_GYRO_Z : Fin 3 := 2

/-- Modelled from the spec: the index of the X axis inside the accelerometer bias
block (enum of `imu_model.h`, not part of the sources at hand). -/
def BIAS_ACCEL_X : Fin 3 := 0

/-- Modelled from the spec: the index of the Y axis inside the accelerometer bias
block. -/
def BIAS_ACCEL_Y : Fin 3 := 1

/-- Modelled from the spec: the index of the Z axis inside the accelerometer bias
block. -/
def BIAS_ACCEL_Z : Fin 3 := 2

/-- A registered sub-state: a block of the state, known by the index of its first
entry in the state vector and of its first row/column in the covariance-sized
matrices (`getVectorIndex()`, `getCovarianceIndex()`). -/
structure SubState where
  vectorIndex : Nat
  covarianceIndex : Nat
  deriving DecidableEq, Repr

/-- The state container as the models see it: the mean vector, the covariance,
the current rotation matrix `R()`, the system status and the pointers to the
core blocks, each of which may be null. -/
structure State (α : Type) where
  x : StateVector α
  P : SystemMatrix α
  R : RotationMatrix α
  getSystemStatus : SystemStatus
  orientation : Option SubState
  rate : Option SubState
  position : Option SubState
  velocity : Option SubState
  acceleration : Option SubState

section Views

variable {α : Type}

/-- The result of `setZero()` on a vector. -/
def StateVector.setZero [Zero α] : StateVector α := fun _ => 0

/-- The result of `setZero()` on a matrix. -/
def SystemMatrix.setZero [Zero α] : SystemMatrix α := fun _ _ => 0

/-- The product `R * b` of a 3x3 matrix and a 3-vector. -/
def RotationMatrix.mulVec [Add α] [Mul α] (R : RotationMatrix α) (b : ColumnVector3 α) : ColumnVector3 α :=
  fun i => R i 0 * b 0 + R i 1 * b 1 + R i 2 * b 2

/-- The value `s->vector()` of a sub-state: the three entries of the state vector
that start at the block's vector index. -/
def SubState.vector (s : SubState) (state : State α) : ColumnVector3 α :=
  fun i => state.x (s.vectorIndex + i.val)

/-- The assignment `s->segment(v)(i) = a`: entry `i` of the block's slice of `v`. -/
def SubState.segmentSet (s : SubState) (v : StateVector α) (i : Fin 3) (a : α) :
    StateVector α :=
  fun k => if k = s.vectorIndex + i.val then a else v k

/-- The assignment `s->segment(v).head(3) = w`. -/
def SubState.segmentSetHead3 (s : SubState) (v : StateVector α) (w : ColumnVector3 α) :
    StateVector α :=
  s.segmentSet (s.segmentSet (s.segmentSet v 0 (w 0)) 1 (w 1)) 2 (w 2)

/-- The assignment `s->block(A, other)(i, j) = a`: entry `(i, j)` of the
cross-block with the rows of `s` and the columns of `other`. -/
def SubState.blockSet (s other : SubState) (A : SystemMatrix α) (i j : Fin 3) (a : α) :
    SystemMatrix α :=
  fun r c => if r = s.covarianceIndex + i.val ∧ c = other.covarianceIndex + j.val then a
    else A r c

/-- The assignment `s->block(A, other).row(i) = w`. -/
def SubState.blockSetRow (s other : SubState) (A : SystemMatrix α) (i : Fin 3)
    (w : ColumnVector3 α) : SystemMatrix α :=
  s.blockSet other (s.blockSet other (s.blockSet other A i 0 (w 0)) i 1 (w 1)) i 2 (w 2)

/-- The assignment `s->block(A, other) = M` of a whole 3x3 block. -/
def SubState.blockAssign (s other : SubState) (A : SystemMatrix α) (M : RotationMatrix α) :
    SystemMatrix α :=
  s.blockSetRow other (s.blockSetRow other (s.blockSetRow other A 0 (M 0)) 1 (M 1)) 2 (M 2)

/-- The view `s->block(A, other)` read as a 3x3 matrix: the cross-block with the
rows of `s` and the columns of `other`. -/
def SubState.block (s other : SubState) (A : SystemMatrix α) : RotationMatrix α :=
  fun i j => A (s.covarianceIndex + i.val) (other.covarianceIndex + j.val)

/-- The right-handed cross product `a × b` of two 3-vectors, as the specification
of the orientation cross term words it; the source has no counterpart, and the
block that the source writes is compared with it. -/
def ColumnVector3.cross [Sub α] [Mul α] (a b : ColumnVector3 α) : ColumnVector3 α :=
  fun i =>
    if i = 0 then a 1 * b 2 - a 2 * b 1
    else if i = 1 then a 2 * b 0 - a 0 * b 2
    else a 0 * b 1 - a 1 * b 0

end Views

/-! ## The gyroscope bias model -/

/-- The members of `GyroModel`: the two parameters and the pointer to the bias
sub-state, null until `init` has registered it. -/
structure GyroModel (α : Type) where
  rate_stddev_ : α
  rate_drift_ : α
  bias_ : Option SubState

section Gyro

variable {α : Type} [Ring α]

/-- The hook `GyroModel::getDerivative` (lines 62-68). -/
def GyroModel.getDerivative (m : GyroModel α) (_x_dot : StateVector α) (state : State α) :
    Option (StateVector α) :=
  let x_dot : StateVector α := StateVector.setZero
  if state.orientation.isSome && !state.rate.isSome then do
    let orientation ← state.orientation
    let bias ← m.bias_
    pure (orientation.segmentSetHead3 x_dot (state.R.mulVec (bias.vector state)))
  else
    pure x_dot

/-- The hook `GyroModel::getStateJacobian` (lines 70-76). -/
def GyroModel.getStateJacobian (m : GyroModel α) (_A : SystemMatrix α) (state : State α) :
    Option (SystemMatrix α) :=
  let A : SystemMatrix α := SystemMatrix.setZero
  if state.orientation.isSome && !state.rate.isSome then do
    let orientation ← state.orientation
    let bias ← m.bias_
    pure (orientation.blockAssign bias A state.R)
  else
    pure A

/-- The hook `GyroModel::getSystemNoise` (lines 55-60).  The chained assignment
of line 58 stores the Y entry first and the X entry second. -/
def GyroModel.getSystemNoise {Inputs : Type} (m : GyroModel α) (Q : NoiseVariance α)
    (_state : State α) (_inputs : Inputs) (init : Bool) : Option (NoiseVariance α) :=
  if !init then pure Q
  else do
    let bias ← m.bias_
    let Q := bias.blockSet bias Q BIAS_GYRO_Y BIAS_GYRO_Y (m.rate_drift_ ^ 2)
    let Q := bias.blockSet bias Q BIAS_GYRO_X BIAS_GYRO_X (m.rate_drift_ ^ 2)
    let Q := bias.blockSet bias Q BIAS_GYRO_Z BIAS_GYRO_Z (m.rate_drift_ ^ 2)
    pure Q

/-- The hook `GyroModel::init` (lines 49-53).  `State::addSubState` is not part of
the sources at hand and is a parameter: given the state and the name of the new
block it returns the state after the call and the pointer to the new block, null
when the registration failed. -/
def GyroModel.init (addSubState : State α → String → Option SubState × State α)
    (m : GyroModel α) (systemName : String) (state : State α) :
    Bool × GyroModel α × State α :=
  let registered := addSubState state (systemName ++ "_bias")
  let m : GyroModel α := { m with bias_ := registered.1 }
  (m.bias_.isSome, m, registered.2)

end Gyro

/-! ## The accelerometer bias model -/

/-- The members of `AccelerometerModel`: the two parameters, the pointer to the
bias sub-state and the bias in the navigation frame cached by `prepareUpdate`. -/
structure AccelerometerModel (α : Type) where
  acceleration_stddev_ : α
  acceleration_drift_ : α
  bias_ : Option SubState
  bias_nav_ : ColumnVector3 α

section Accelerometer

variable {α : Type} [Ring α]

/-- The hook `AccelerometerModel::init` (lines 89-93), with `State::addSubState`
as a parameter as in `GyroModel.init`. -/
def AccelerometerModel.init (addSubState : State α → String → Option SubState × State α)
    (m : AccelerometerModel α) (systemName : String) (state : State α) :
    Bool × AccelerometerModel α × State α :=
  let registered := addSubState state (systemName ++ "_bias")
  let m : AccelerometerModel α := { m with bias_ := registered.1 }
  (m.bias_.isSome, m, registered.2)

/-- The hook `AccelerometerModel::getSystemNoise` (lines 95-100). -/
def AccelerometerModel.getSystemNoise {Inputs : Type} (m : AccelerometerModel α)
    (Q : NoiseVariance α) (_state : State α) (_inputs : Inputs) (init : Bool) :
    Option (NoiseVariance α) :=
  if !init then pure Q
  else do
    let bias ← m.bias_
    let Q := bias.blockSet bias Q BIAS_ACCEL_Y BIAS_ACCEL_Y (m.acceleration_drift_ ^ 2)
    let Q := bias.blockSet bias Q BIAS_ACCEL_X BIAS_ACCEL_X (m.acceleration_drift_ ^ 2)
    let Q := bias.blockSet bias Q BIAS_ACCEL_Z BIAS_ACCEL_Z (m.acceleration_drift_ ^ 2)
    pure Q

/-- The hook `AccelerometerModel::prepareUpdate` (lines 102-107): the returned
flag, the model with its new cache and the state, which the hook receives by
mutable reference.  The debug output of line 105 has no effect on either. -/
def AccelerometerModel.prepareUpdate (m : AccelerometerModel α) (state : State α) (_dt : α) :
    Option (Bool × AccelerometerModel α × State α) := do
  let bias ← m.bias_
  let m : AccelerometerModel α := { m with bias_nav_ := state.R.mulVec (bias.vector state) }
  pure (true, m, state)

/-- The hook `AccelerometerModel::getDerivative` (lines 109-121).  The two status
masks `STATE_VELOCITY_XY` and `STATE_VELOCITY_Z` are declared in `types.h`, which
is not part of the sources at hand, and are parameters. -/
def AccelerometerModel.getDerivative (STATE_VELOCITY_XY STATE_VELOCITY_Z : SystemStatus)
    (m : AccelerometerModel α) (_x_dot : StateVector α) (state : State α) :
    Option (StateVector α) := do
  let mut x_dot : StateVector α := StateVector.setZero
  if state.velocity.isSome && !state.acceleration.isSome then
    if state.getSystemStatus &&& STATE_VELOCITY_XY ≠ 0 then
      let velocity ← state.velocity
      x_dot := velocity.segmentSet x_dot X (m.bias_nav_ 0)
      x_dot := velocity.segmentSet x_dot Y (m.bias_nav_ 1)
    if state.getSystemStatus &&& STATE_VELOCITY_Z ≠ 0 then
      let velocity ← state.velocity
      x_dot := velocity.segmentSet x_dot Z (m.bias_nav_ 2)
  pure x_dot

/-- The values that lines 138-150 store in the velocity-orientation block, by row
and column of the block. -/
def orientationCrossTerm (bias_nav : ColumnVector3 α) : RotationMatrix α :=
  fun i j =>
    if i = X then (if j = X then 0 else if j = Y then bias_nav 2 else -bias_nav 1)
    else if i = Y then (if j = X then -bias_nav 2 else if j = Y then 0 else bias_nav 0)
    else (if j = X then bias_nav 1 else if j = Y then -bias_nav 0 else 0)

/-- The hook `AccelerometerModel::getStateJacobian` (lines 123-153), with the two
status masks as parameters as in `AccelerometerModel.getDerivative`. -/
def AccelerometerModel.getStateJacobian (STATE_VELOCITY_XY STATE_VELOCITY_Z : SystemStatus)
    (m : AccelerometerModel α) (_A : SystemMatrix α) (state : State α) :
    Option (SystemMatrix α) := do
  let mut A : SystemMatrix α := SystemMatrix.setZero
  if state.velocity.isSome && !state.acceleration.isSome then
    let R := state.R
    if state.getSystemStatus &&& STATE_VELOCITY_XY ≠ 0 then
      let velocity ← state.velocity
      let bias ← m.bias_
      A := velocity.blockSetRow bias A X (R X)
      A := velocity.blockSetRow bias A Y (R Y)
    if state.getSystemStatus &&& STATE_VELOCITY_Z ≠ 0 then
      let velocity ← state.velocity
      let bias ← m.bias_
      A := velocity.blockSetRow bias A Z (R Z)
    if state.getSystemStatus &&& STATE_VELOCITY_XY ≠ 0 then
      let velocity ← state.velocity
      let orientation ← state.orientation
      A := velocity.blockSet orientation A X X 0
      A := velocity.blockSet orientation A X Y (m.bias_nav_ 2)
      A := velocity.blockSet orientation A X Z (-m.bias_nav_ 1)
      A := velocity.blockSet orientation A Y X (-m.bias_nav_ 2)
      A := velocity.blockSet orientation A Y Y 0
      A := velocity.blockSet orientation A Y Z (m.bias_nav_ 0)
    if state.getSystemStatus &&& STATE_VELOCITY_Z ≠ 0 then
      let velocity ← state.velocity
      let orientation ← state.orientation
      A := velocity.blockSet orientation A Z X (m.bias_nav_ 1)
      A := velocity.blockSet orientation A Z Y (-m.bias_nav_ 0)
      A := velocity.blockSet orientation A Z Z 0
  pure A

end Accelerometer

/-! ## Repeated calls of `getSystemNoise` -/

section NoiseCalls

variable {α : Type} [Ring α] {Inputs : Type}

/-- The calls of `GyroModel::getSystemNoise` made one after the other on the same
`Q`, one call for each pair of a state and inputs in the list, all with the same
flag `init`. -/
def GyroModel.getSystemNoiseCalls (m : GyroModel α) (init : Bool) :
    List (State α × Inputs) → NoiseVariance α → Option (NoiseVariance α)
  | [], Q => some Q
  | call :: calls, Q =>
    (m.getSystemNoise Q call.1 call.2 init).bind (GyroModel.getSystemNoiseCalls m init calls)

/-- The calls of `AccelerometerModel::getSystemNoise` made one after the other on
the same `Q`, as in `GyroModel.getSystemNoiseCalls`. -/
def AccelerometerModel.getSystemNoiseCalls (m : AccelerometerModel α) (init : Bool) :
    List (State α × Inputs) → NoiseVariance α → Option (NoiseVariance α)
  | [], Q => some Q
  | call :: calls, Q =>
    (m.getSystemNoise Q call.1 call.2 init).bind
      (AccelerometerModel.getSystemNoiseCalls m init calls)

end NoiseCalls

/-! ## Concrete inputs

States and models over the rationals at which the theorems below are
instantiated.  The status masks used with them are 128 for the horizontal and
256 for the vertical velocity. -/

section Examples

/-- A state with orientation, position and velocity blocks, without rate and
acceleration blocks, with the identity rotation and both velocity bits set.
The entries 10, 11, 12 of the mean hold an accelerometer bias
`(0.1, -0.2, 0.05)`, the entries 13, 14, 15 a gyro bias `(3, 5, 7)`. -/
def exampleState : State ℚ where
  x := fun k =>
    if k = 10 then 1 / 10 else if k = 11 then -1 / 5 else if k = 12 then 1 / 20
    else if k = 13 then 3 else if k = 14 then 5 else if k = 15 then 7 else 0
  P := fun _ _ => 0
  R := fun i j => if i = j then 1 else 0
  getSystemStatus := 384
  orientation := some ⟨0, 0⟩
  rate := none
  position := some ⟨4, 3⟩
  velocity := some ⟨7, 6⟩
  acceleration := none

/-- The state `exampleState` with a rotation by a quarter turn about the Z axis. -/
def exampleTurnedState : State ℚ :=
  { exampleState with R := fun i j =>
      if i = 0 ∧ j = 1 then -1 else if i = 1 ∧ j = 0 then 1 else if i = 2 ∧ j = 2 then 1 else 0 }

/-- The state `exampleTurnedState` with only the horizontal velocity bit set. -/
def exampleHorizontalState : State ℚ :=
  { exampleTurnedState with getSystemStatus := 128 }

/-- The state `exampleTurnedState` with only the vertical velocity bit set. -/
def exampleVerticalState : State ℚ :=
  { exampleTurnedState with getSystemStatus := 256 }

/-- A full state: as `exampleTurnedState`, with rate and acceleration blocks too. -/
def exampleFullState : State ℚ :=
  { exampleTurnedState with rate := some ⟨16, 15⟩, acceleration := some ⟨19, 18⟩ }

/-- A state without orientation block: position and velocity only. -/
def examplePositionVelocityState : State ℚ :=
  { exampleTurnedState with orientation := none, position := some ⟨0, 0⟩,
                            velocity := some ⟨3, 3⟩ }

/-- The accelerometer bias block of the example states. -/
def exampleAccelBias : SubState := ⟨10, 9⟩

/-- The gyro bias block of the example states. -/
def exampleGyroBias : SubState := ⟨13, 12⟩

/-- A gyro model registered in the example states, with its default parameters
replaced by rationals. -/
def exampleGyroModel : GyroModel ℚ where
  rate_stddev_ := 1 / 50
  rate_drift_ := 1 / 500
  bias_ := some exampleGyroBias

/-- An accelerometer model registered in the example states, with the default
parameters of the constructor and a cache that holds `(2, 3, 4)`. -/
def exampleAccelerometerModel : AccelerometerModel ℚ where
  acceleration_stddev_ := 1 / 100
  acceleration_drift_ := 1 / 1000
  bias_ := some exampleAccelBias
  bias_nav_ := fun i => if i = 0 then 2 else if i = 1 then 3 else 4

/-- The state `examplePositionVelocityState` with only the vertical velocity bit
set. -/
def exampleVerticalPositionVelocityState : State ℚ :=
  { examplePositionVelocityState with getSystemStatus := 256 }

/-- The state `examplePositionVelocityState` with only the horizontal velocity bit
set. -/
def exampleHorizontalPositionVelocityState : State ℚ :=
  { examplePositionVelocityState with getSystemStatus := 128 }

/-- The name of the system that owns the example gyro model. -/
def exampleSystemName : String := "gyro"

/-- A registration that knows one free block: it hands out the block
`exampleGyroBias` under the name `gyro_bias` and fails for every other name.
The state is returned as it was. -/
def exampleAddSubState (state : State ℚ) (name : String) : Option SubState × State ℚ :=
  (if name = "gyro_bias" then some exampleGyroBias else none, state)

/-- A registration without a free block: it fails for every name. -/
def exampleFullAddSubState (state : State ℚ) (_name : String) : Option SubState × State ℚ :=
  (none, state)

end Examples

/-! ## Reading back what an assignment wrote -/

section ViewLemmas

variable {α : Type}

theorem SubState.segmentSet_self (s : SubState) (v : StateVector α) (i : Fin 3) (a : α) :
    s.segmentSet v i a (s.vectorIndex + i.val) = a := by
  simp [SubState.segmentSet]

theorem SubState.segmentSet_of_ne (s : SubState) (v : StateVector α) (i : Fin 3) (a : α)
    (k : Nat) (h : k ≠ s.vectorIndex + i.val) : s.segmentSet v i a k = v k := by
  simp [SubState.segmentSet, h]

theorem SubState.blockSet_self (s other : SubState) (A : SystemMatrix α) (i j : Fin 3) (a : α) :
    s.blockSet other A i j a (s.covarianceIndex + i.val) (other.covarianceIndex + j.val) = a := by
  simp [SubState.blockSet]

theorem SubState.blockSet_of_ne (s other : SubState) (A : SystemMatrix α) (i j : Fin 3) (a : α)
    (r c : Nat) (h : r ≠ s.covarianceIndex + i.val ∨ c ≠ other.covarianceIndex + j.val) :
    s.blockSet other A i j a r c = A r c := by
  unfold SubState.blockSet
  rw [if_neg]
  intro hrc
  rcases h with h | h
  · exact h hrc.1
  · exact h hrc.2

theorem SubState.blockSetRow_self (s other : SubState) (A : SystemMatrix α) (i : Fin 3)
    (w : ColumnVector3 α) (j : Fin 3) :
    s.blockSetRow other A i w (s.covarianceIndex + i.val) (other.covarianceIndex + j.val)
      = w j := by
  fin_cases j <;> simp [SubState.blockSetRow, SubState.blockSet]

theorem SubState.blockSetRow_of_ne (s other : SubState) (A : SystemMatrix α) (i : Fin 3)
    (w : ColumnVector3 α) (r c : Nat)
    (h : r ≠ s.covarianceIndex + i.val ∨ c < other.covarianceIndex ∨
      other.covarianceIndex + 3 ≤ c) :
    s.blockSetRow other A i w r c = A r c := by
  unfold SubState.blockSetRow
  rw [SubState.blockSet_of_ne, SubState.blockSet_of_ne, SubState.blockSet_of_ne]
  all_goals
    rcases h with h | h
    · exact Or.inl h
    · right
      simp
      omega

theorem SubState.blockAssign_self (s other : SubState) (A : SystemMatrix α)
    (M : RotationMatrix α) (i j : Fin 3) :
    s.blockAssign other A M (s.covarianceIndex + i.val) (other.covarianceIndex + j.val)
      = M i j := by
  fin_cases i
  · simp only [SubState.blockAssign]
    rw [SubState.blockSetRow_of_ne _ _ _ _ _ _ _ (Or.inl (by simp)),
      SubState.blockSetRow_of_ne _ _ _ _ _ _ _ (Or.inl (by simp))]
    exact SubState.blockSetRow_self s other A 0 (M 0) j
  · simp only [SubState.blockAssign]
    rw [SubState.blockSetRow_of_ne _ _ _ _ _ _ _ (Or.inl (by simp))]
    exact SubState.blockSetRow_self s other _ 1 (M 1) j
  · simp only [SubState.blockAssign]
    exact SubState.blockSetRow_self s other _ 2 (M 2) j

theorem SubState.blockAssign_of_outside (s other : SubState) (A : SystemMatrix α)
    (M : RotationMatrix α) (r c : Nat)
    (h : ¬ (s.covarianceIndex ≤ r ∧ r < s.covarianceIndex + 3 ∧
      other.covarianceIndex ≤ c ∧ c < other.covarianceIndex + 3)) :
    s.blockAssign other A M r c = A r c := by
  unfold SubState.blockAssign
  rw [SubState.blockSetRow_of_ne, SubState.blockSetRow_of_ne, SubState.blockSetRow_of_ne]
  all_goals
    simp
    omega

end ViewLemmas

section AccelerometerLemmas

variable {α : Type} [Ring α]

/-- The accelerometer derivative read back entry by entry, with the velocity block
present and the acceleration block absent: an entry of the velocity slice holds the cached component when the status bit of
its axis group is set, and every other entry is zero. -/
theorem AccelerometerModel.getDerivative_entries (XY Zf : SystemStatus)
    (m : AccelerometerModel α) (x_dot : StateVector α) (state : State α) (velocity : SubState)
    (hv : state.velocity = some velocity) (ha : state.acceleration = none) :
    ∃ r, m.getDerivative XY Zf x_dot state = some r ∧
      (∀ i : Fin 3, r (velocity.vectorIndex + i.val)
        = if (if i = Z then state.getSystemStatus &&& Zf ≠ 0
              else state.getSystemStatus &&& XY ≠ 0)
          then m.bias_nav_ i else 0) ∧
      (∀ k, (k < velocity.vectorIndex ∨ velocity.vectorIndex + 3 ≤ k) → r k = 0) := by
  by_cases h1 : state.getSystemStatus &&& XY = 0
  · by_cases h2 : state.getSystemStatus &&& Zf = 0
    · -- neither velocity bit is set
      refine ⟨_, by simp [AccelerometerModel.getDerivative, hv, ha, h1, h2]; rfl, ?_, ?_⟩
      · intro i
        fin_cases i <;> simp [Z, h1, h2, StateVector.setZero]
      · intro k _
        rfl
    · -- only the vertical velocity bit is set
      refine ⟨_, by simp [AccelerometerModel.getDerivative, hv, ha, h1, h2]; rfl, ?_, ?_⟩
      · intro i
        fin_cases i <;> simp [SubState.segmentSet, X, Y, Z, h1, h2, StateVector.setZero]
      · intro k hk
        rw [SubState.segmentSet_of_ne _ _ _ _ _ (by simp only [Z, Fin.val_two]; omega)]
        rfl
  · by_cases h2 : state.getSystemStatus &&& Zf = 0
    · -- only the horizontal velocity bit is set
      refine ⟨_, by simp [AccelerometerModel.getDerivative, hv, ha, h1, h2]; rfl, ?_, ?_⟩
      · intro i
        fin_cases i <;> simp [SubState.segmentSet, X, Y, Z, h1, h2, StateVector.setZero]
      · intro k hk
        rw [SubState.segmentSet_of_ne _ _ _ _ _ (by simp only [Y, Fin.val_one]; omega),
          SubState.segmentSet_of_ne _ _ _ _ _ (by simp only [X, Fin.val_zero]; omega)]
        rfl
    · -- both velocity bits are set
      refine ⟨_, by simp [AccelerometerModel.getDerivative, hv, ha, h1, h2]; rfl, ?_, ?_⟩
      · intro i
        fin_cases i <;> simp [SubState.segmentSet, X, Y, Z, h1, h2, StateVector.setZero]
      · intro k hk
        rw [SubState.segmentSet_of_ne _ _ _ _ _ (by simp only [Z, Fin.val_two]; omega),
          SubState.segmentSet_of_ne _ _ _ _ _ (by simp only [Y, Fin.val_one]; omega),
          SubState.segmentSet_of_ne _ _ _ _ _ (by simp only [X, Fin.val_zero]; omega)]
        rfl

/-- The accelerometer Jacobian read back entry by entry, with the velocity block
present, the acceleration block absent and the bias and orientation pointers
non-null: the velocity-orientation block
(written last), the velocity-bias block (when its columns are not those of the
orientation), the zero rows of an axis group whose status bit is not set, and
the zeros outside the two blocks. -/
theorem AccelerometerModel.getStateJacobian_entries (XY Zf : SystemStatus)
    (m : AccelerometerModel α) (A : SystemMatrix α) (state : State α)
    (velocity bias orientation : SubState)
    (hv : state.velocity = some velocity) (ha : state.acceleration = none)
    (hb : m.bias_ = some bias) (ho : state.orientation = some orientation) :
    ∃ J, m.getStateJacobian XY Zf A state = some J ∧
      (∀ i j : Fin 3, J (velocity.covarianceIndex + i.val) (orientation.covarianceIndex + j.val)
        = if (if i = Z then state.getSystemStatus &&& Zf ≠ 0
              else state.getSystemStatus &&& XY ≠ 0)
          then orientationCrossTerm m.bias_nav_ i j else 0) ∧
      ((orientation.covarianceIndex + 3 ≤ bias.covarianceIndex ∨
          bias.covarianceIndex + 3 ≤ orientation.covarianceIndex) →
        ∀ i j : Fin 3, J (velocity.covarianceIndex + i.val) (bias.covarianceIndex + j.val)
          = if (if i = Z then state.getSystemStatus &&& Zf ≠ 0
                else state.getSystemStatus &&& XY ≠ 0)
            then state.R i j else 0) ∧
      (∀ (i : Fin 3) (c : Nat),
        ¬ (if i = Z then state.getSystemStatus &&& Zf ≠ 0
           else state.getSystemStatus &&& XY ≠ 0) →
        J (velocity.covarianceIndex + i.val) c = 0) ∧
      (∀ r c, ¬ (velocity.covarianceIndex ≤ r ∧ r < velocity.covarianceIndex + 3 ∧
          ((bias.covarianceIndex ≤ c ∧ c < bias.covarianceIndex + 3) ∨
           (orientation.covarianceIndex ≤ c ∧ c < orientation.covarianceIndex + 3))) →
        J r c = 0) := by
  by_cases h1 : state.getSystemStatus &&& XY = 0
  · by_cases h2 : state.getSystemStatus &&& Zf = 0
    · -- neither velocity bit is set
      refine ⟨_, by simp [AccelerometerModel.getStateJacobian, hv, ha, hb, ho, h1, h2]; rfl,
        ?_, ?_, ?_, ?_⟩
      · intro i j
        fin_cases i <;> simp [Z, h1, h2, SystemMatrix.setZero]
      · intro _ i j
        fin_cases i <;> simp [Z, h1, h2, SystemMatrix.setZero]
      · intro i c _
        rfl
      · intro r c _
        rfl
    · -- only the vertical velocity bit is set
      refine ⟨_, by simp [AccelerometerModel.getStateJacobian, hv, ha, hb, ho, h1, h2]; rfl,
        ?_, ?_, ?_, ?_⟩
      · intro i j
        fin_cases i <;> fin_cases j <;>
          simp [SubState.blockSetRow, SubState.blockSet, orientationCrossTerm, X, Y, Z, h1, h2,
            SystemMatrix.setZero]
      · intro hd i j
        fin_cases i <;> fin_cases j <;>
          simp [SubState.blockSetRow, SubState.blockSet, X, Y, Z, h1, h2,
            SystemMatrix.setZero] <;> (split_ifs <;> first | rfl | omega)
      · intro i c hi
        fin_cases i
        all_goals first
          | (exfalso; simp [Z, h1, h2] at hi; done)
          | (simp only [SubState.blockSetRow]
             repeat rw [SubState.blockSet_of_ne _ _ _ _ _ _ _ _ (by
               simp only [X, Y, Z, Fin.val_zero, Fin.val_one, Fin.val_two, Fin.zero_eta,
                 Fin.mk_one, Fin.reduceFinMk]; omega)]
             rfl)
      · intro r c hrc
        simp only [SubState.blockSetRow]
        repeat rw [SubState.blockSet_of_ne _ _ _ _ _ _ _ _ (by
          simp only [X, Y, Z, Fin.val_zero, Fin.val_one, Fin.val_two]; omega)]
        rfl
  · by_cases h2 : state.getSystemStatus &&& Zf = 0
    · -- only the horizontal velocity bit is set
      refine ⟨_, by simp [AccelerometerModel.getStateJacobian, hv, ha, hb, ho, h1, h2]; rfl,
        ?_, ?_, ?_, ?_⟩
      · intro i j
        fin_cases i <;> fin_cases j <;>
          simp [SubState.blockSetRow, SubState.blockSet, orientationCrossTerm, X, Y, Z, h1, h2,
            SystemMatrix.setZero]
      · intro hd i j
        fin_cases i <;> fin_cases j <;>
          simp [SubState.blockSetRow, SubState.blockSet, X, Y, Z, h1, h2,
            SystemMatrix.setZero] <;> (split_ifs <;> first | rfl | omega)
      · intro i c hi
        fin_cases i
        all_goals first
          | (exfalso; simp [Z, h1, h2] at hi; done)
          | (simp only [SubState.blockSetRow]
             repeat rw [SubState.blockSet_of_ne _ _ _ _ _ _ _ _ (by
               simp only [X, Y, Z, Fin.val_zero, Fin.val_one, Fin.val_two, Fin.zero_eta,
                 Fin.mk_one, Fin.reduceFinMk]; omega)]
             rfl)
      · intro r c hrc
        simp only [SubState.blockSetRow]
        repeat rw [SubState.blockSet_of_ne _ _ _ _ _ _ _ _ (by
          simp only [X, Y, Z, Fin.val_zero, Fin.val_one, Fin.val_two]; omega)]
        rfl
    · -- both velocity bits are set
      refine ⟨_, by simp [AccelerometerModel.getStateJacobian, hv, ha, hb, ho, h1, h2]; rfl,
        ?_, ?_, ?_, ?_⟩
      · intro i j
        fin_cases i <;> fin_cases j <;>
          simp [SubState.blockSetRow, SubState.blockSet, orientationCrossTerm, X, Y, Z, h1, h2,
            SystemMatrix.setZero]
      · intro hd i j
        fin_cases i <;> fin_cases j <;>
          simp [SubState.blockSetRow, SubState.blockSet, X, Y, Z, h1, h2,
            SystemMatrix.setZero] <;> (split_ifs <;> first | rfl | omega)
      · intro i c hi
        exfalso
        fin_cases i <;> simp [Z, h1, h2] at hi
      · intro r c hrc
        simp only [SubState.blockSetRow]
        repeat rw [SubState.blockSet_of_ne _ _ _ _ _ _ _ _ (by
          simp only [X, Y, Z, Fin.val_zero, Fin.val_one, Fin.val_two]; omega)]
        rfl

end AccelerometerLemmas

/-! # Theorems -/

/-! ## The gyroscope bias model: derivative and Jacobian -/

section GyroTheorems

variable {α : Type} [Ring α]

/-- C1. `GyroModel::getDerivative`: when the orientation block is present and the
rate block is absent, the three entries of the orientation slice of the result
are `R * b` and every other entry is zero (so is the bias slice of the model,
which lies apart from these three entries), whatever `x_dot` held before; when
the orientation block is absent or the rate block is present, the result is
zero in every entry. -/
theorem GyroModel.getDerivative_spec (m : GyroModel α) (x_dot : StateVector α)
    (state : State α) :
    (∀ orientation bias, state.orientation = some orientation → state.rate = none →
      m.bias_ = some bias →
      ∃ r, m.getDerivative x_dot state = some r ∧
        (∀ i : Fin 3, r (orientation.vectorIndex + i.val)
          = state.R.mulVec (bias.vector state) i) ∧
        (∀ k, (k < orientation.vectorIndex ∨ orientation.vectorIndex + 3 ≤ k) → r k = 0) ∧
        (orientation.vectorIndex + 3 ≤ bias.vectorIndex ∨
            bias.vectorIndex + 3 ≤ orientation.vectorIndex →
          ∀ i : Fin 3, r (bias.vectorIndex + i.val) = 0)) ∧
    ((state.orientation = none ∨ state.rate ≠ none) →
      m.getDerivative x_dot state = some (fun _ => 0)) := by
  constructor
  · intro orientation bias ho hr hb
    have hzero : ∀ k, (k < orientation.vectorIndex ∨ orientation.vectorIndex + 3 ≤ k) →
        orientation.segmentSetHead3 (StateVector.setZero : StateVector α)
          (state.R.mulVec (bias.vector state)) k = 0 := by
      intro k hk
      simp only [SubState.segmentSetHead3]
      rw [SubState.segmentSet_of_ne _ _ _ _ _ (by simp only [Fin.val_two]; omega),
        SubState.segmentSet_of_ne _ _ _ _ _ (by simp only [Fin.val_one]; omega),
        SubState.segmentSet_of_ne _ _ _ _ _ (by simp only [Fin.val_zero]; omega)]
      rfl
    refine ⟨orientation.segmentSetHead3 StateVector.setZero
        (state.R.mulVec (bias.vector state)),
      by simp [GyroModel.getDerivative, ho, hr, hb], ?_, hzero, ?_⟩
    · intro i
      fin_cases i <;>
        simp [SubState.segmentSetHead3, SubState.segmentSet]
    · intro hd i
      apply hzero
      have := i.isLt
      omega
  · intro h
    rcases h with h | h
    · simp [GyroModel.getDerivative, h]
      rfl
    · obtain ⟨r, hr⟩ := Option.ne_none_iff_exists'.mp h
      simp [GyroModel.getDerivative, hr]
      rfl

/-- C1 at concrete inputs: with a quarter turn about Z and the gyro bias
`(3, 5, 7)` the orientation slice receives `(-5, 3, 7)` and the entries next to
it and in the bias slice are zero; in the full state, which has a rate block,
the result is zero. -/
theorem GyroModel.getDerivative_spec_witness :
    (∃ r, exampleGyroModel.getDerivative (fun _ => 9) exampleTurnedState = some r ∧
      r 0 = -5 ∧ r 1 = 3 ∧ r 2 = 7 ∧ r 3 = 0 ∧ r 13 = 0 ∧ r 14 = 0 ∧ r 15 = 0) ∧
    exampleGyroModel.getDerivative (fun _ => 9) exampleFullState = some (fun _ => 0) := by
  have h := GyroModel.getDerivative_spec exampleGyroModel (fun _ => 9) exampleTurnedState
  obtain ⟨r, hr, hval, hzero, hbias⟩ := h.1 ⟨0, 0⟩ exampleGyroBias rfl rfl rfl
  refine ⟨⟨r, hr, ?_, ?_, ?_, hzero 3 (by simp), hbias (Or.inl (by decide)) 0,
    hbias (Or.inl (by decide)) 1, hbias (Or.inl (by decide)) 2⟩, ?_⟩
  · simpa [RotationMatrix.mulVec, SubState.vector, exampleTurnedState, exampleState,
      exampleGyroBias] using hval 0
  · simpa [RotationMatrix.mulVec, SubState.vector, exampleTurnedState, exampleState,
      exampleGyroBias] using hval 1
  · simpa [RotationMatrix.mulVec, SubState.vector, exampleTurnedState, exampleState,
      exampleGyroBias] using hval 2
  · exact (GyroModel.getDerivative_spec exampleGyroModel (fun _ => 9) exampleFullState).2
      (Or.inr (by simp [exampleFullState]))

/-- C2. `GyroModel::getStateJacobian`: when the orientation block is present and
the rate block is absent, the cross-block of the result with the orientation
rows and the gyro bias columns is the rotation matrix `R`, entry for entry, and
every other entry is zero (so are the self-blocks of the bias and of the
orientation, the two blocks being disjoint), whatever `A` held before; when the
orientation block is absent or the rate block is present, the result is zero in
every entry. -/
theorem GyroModel.getStateJacobian_spec (m : GyroModel α) (A : SystemMatrix α)
    (state : State α) :
    (∀ orientation bias, state.orientation = some orientation → state.rate = none →
      m.bias_ = some bias →
      ∃ J, m.getStateJacobian A state = some J ∧
        (∀ i j : Fin 3, J (orientation.covarianceIndex + i.val) (bias.covarianceIndex + j.val)
          = state.R i j) ∧
        (∀ r c, ¬ (orientation.covarianceIndex ≤ r ∧ r < orientation.covarianceIndex + 3 ∧
            bias.covarianceIndex ≤ c ∧ c < bias.covarianceIndex + 3) → J r c = 0) ∧
        (orientation.covarianceIndex + 3 ≤ bias.covarianceIndex ∨
            bias.covarianceIndex + 3 ≤ orientation.covarianceIndex →
          ∀ i j : Fin 3,
            J (bias.covarianceIndex + i.val) (bias.covarianceIndex + j.val) = 0 ∧
            J (orientation.covarianceIndex + i.val) (orientation.covarianceIndex + j.val) = 0)) ∧
    ((state.orientation = none ∨ state.rate ≠ none) →
      m.getStateJacobian A state = some (fun _ _ => 0)) := by
  constructor
  · intro orientation bias ho hr hb
    have hzero : ∀ r c, ¬ (orientation.covarianceIndex ≤ r ∧
        r < orientation.covarianceIndex + 3 ∧
        bias.covarianceIndex ≤ c ∧ c < bias.covarianceIndex + 3) →
        orientation.blockAssign bias (SystemMatrix.setZero : SystemMatrix α) state.R r c = 0 := by
      intro r c hrc
      rw [SubState.blockAssign_of_outside _ _ _ _ _ _ hrc]
      rfl
    refine ⟨orientation.blockAssign bias SystemMatrix.setZero state.R,
      by simp [GyroModel.getStateJacobian, ho, hr, hb], ?_, hzero, ?_⟩
    · intro i j
      exact SubState.blockAssign_self _ _ _ _ i j
    · intro hd i j
      constructor <;> apply hzero <;> have := i.isLt <;> have := j.isLt <;> omega
  · intro h
    rcases h with h | h
    · simp [GyroModel.getStateJacobian, h]
      rfl
    · obtain ⟨r, hr⟩ := Option.ne_none_iff_exists'.mp h
      simp [GyroModel.getStateJacobian, hr]
      rfl

/-- C2 at concrete inputs: with a quarter turn about Z the block with the
orientation rows 0..2 and the gyro bias columns 12..14 holds the rotation
matrix, the entries around it are zero, and in the full state, which has a rate
block, the result is zero. -/
theorem GyroModel.getStateJacobian_spec_witness :
    (∃ J, exampleGyroModel.getStateJacobian (fun _ _ => 9) exampleTurnedState = some J ∧
      J 0 12 = 0 ∧ J 0 13 = -1 ∧ J 1 12 = 1 ∧ J 2 14 = 1 ∧ J 1 13 = 0 ∧
      J 0 0 = 0 ∧ J 12 12 = 0 ∧ J 3 12 = 0 ∧ J 0 11 = 0 ∧ J 0 15 = 0) ∧
    exampleGyroModel.getStateJacobian (fun _ _ => 9) exampleFullState
      = some (fun _ _ => 0) := by
  have h := GyroModel.getStateJacobian_spec exampleGyroModel (fun _ _ => 9) exampleTurnedState
  obtain ⟨J, hJ, hval, hzero, -⟩ := h.1 ⟨0, 0⟩ exampleGyroBias rfl rfl rfl
  refine ⟨⟨J, hJ, ?_, ?_, ?_, ?_, ?_, hzero 0 0 (by simp [exampleGyroBias]),
    hzero 12 12 (by simp), hzero 3 12 (by simp), hzero 0 11 (by simp [exampleGyroBias]),
    hzero 0 15 (by simp [exampleGyroBias])⟩, ?_⟩
  · simpa [exampleTurnedState, exampleGyroBias] using hval 0 0
  · simpa [exampleTurnedState, exampleGyroBias] using hval 0 1
  · simpa [exampleTurnedState, exampleGyroBias] using hval 1 0
  · simpa [exampleTurnedState, exampleGyroBias] using hval 2 2
  · simpa [exampleTurnedState, exampleGyroBias] using hval 1 1
  · exact (GyroModel.getStateJacobian_spec exampleGyroModel (fun _ _ => 9) exampleFullState).2
      (Or.inr (by simp [exampleFullState]))

end GyroTheorems

/-! ## The accelerometer bias model: derivative and Jacobian -/

section AccelerometerTheorems

variable {α : Type} [Ring α]

/-- C3. `AccelerometerModel::getDerivative` after `prepareUpdate` on the same
state `s`, with the velocity block present and the acceleration block absent:
`prepareUpdate` succeeds, and the velocity slice of the derivative holds the X
and Y components of `R(s) * b(s)` when `STATE_VELOCITY_XY` is set and zero
otherwise, the Z component of `R(s) * b(s)` when `STATE_VELOCITY_Z` is set and
zero otherwise; every entry outside the velocity slice is zero, whatever
`x_dot` held before. -/
theorem AccelerometerModel.prepareUpdate_getDerivative
    (STATE_VELOCITY_XY STATE_VELOCITY_Z : SystemStatus) (m : AccelerometerModel α)
    (x_dot : StateVector α) (s : State α) (dt : α) (velocity bias : SubState)
    (hv : s.velocity = some velocity) (ha : s.acceleration = none)
    (hb : m.bias_ = some bias) :
    ∃ m1 r, m.prepareUpdate s dt = some (true, m1, s) ∧
      m1.getDerivative STATE_VELOCITY_XY STATE_VELOCITY_Z x_dot s = some r ∧
      r (velocity.vectorIndex + X.val)
        = (if s.getSystemStatus &&& STATE_VELOCITY_XY ≠ 0
            then s.R.mulVec (bias.vector s) X else 0) ∧
      r (velocity.vectorIndex + Y.val)
        = (if s.getSystemStatus &&& STATE_VELOCITY_XY ≠ 0
            then s.R.mulVec (bias.vector s) Y else 0) ∧
      r (velocity.vectorIndex + Z.val)
        = (if s.getSystemStatus &&& STATE_VELOCITY_Z ≠ 0
            then s.R.mulVec (bias.vector s) Z else 0) ∧
      (∀ k, (k < velocity.vectorIndex ∨ velocity.vectorIndex + 3 ≤ k) → r k = 0) := by
  obtain ⟨r, hr, hval, hzero⟩ := AccelerometerModel.getDerivative_entries
    STATE_VELOCITY_XY STATE_VELOCITY_Z
    ({ m with bias_nav_ := s.R.mulVec (bias.vector s) } : AccelerometerModel α) x_dot s
    velocity hv ha
  refine ⟨{ m with bias_nav_ := s.R.mulVec (bias.vector s) }, r,
    by simp [AccelerometerModel.prepareUpdate, hb], hr, ?_, ?_, ?_, hzero⟩
  · simpa [X, Z] using hval 0
  · simpa [Y, Z] using hval 1
  · simpa [Z] using hval 2

/-- C3 at concrete inputs: with a quarter turn about Z and the accelerometer bias
`(1/10, -1/5, 1/20)`, the velocity slice 7..9 receives `(1/5, 1/10, 1/20)` when
both bits are set and `(1/5, 1/10, 0)` when only the horizontal bit is set. -/
theorem AccelerometerModel.prepareUpdate_getDerivative_witness :
    (∃ m1 r, exampleAccelerometerModel.prepareUpdate exampleTurnedState 0
        = some (true, m1, exampleTurnedState) ∧
      m1.getDerivative 128 256 (fun _ => 9) exampleTurnedState = some r ∧
      r 7 = 1 / 5 ∧ r 8 = 1 / 10 ∧ r 9 = 1 / 20 ∧ r 6 = 0 ∧ r 10 = 0) ∧
    (∃ m1 r, exampleAccelerometerModel.prepareUpdate exampleHorizontalState 0
        = some (true, m1, exampleHorizontalState) ∧
      m1.getDerivative 128 256 (fun _ => 9) exampleHorizontalState = some r ∧
      r 7 = 1 / 5 ∧ r 8 = 1 / 10 ∧ r 9 = 0) := by
  constructor
  · obtain ⟨m1, r, hp, hr, hx, hy, hz, hzero⟩ :=
      AccelerometerModel.prepareUpdate_getDerivative 128 256 exampleAccelerometerModel
        (fun _ => 9) exampleTurnedState 0 ⟨7, 6⟩ exampleAccelBias rfl rfl rfl
    refine ⟨m1, r, hp, hr, ?_, ?_, ?_, hzero 6 (by simp), hzero 10 (by simp)⟩
    · rw [show (7 : Nat) = 7 + X.val from rfl, hx]
      simp [RotationMatrix.mulVec, SubState.vector, exampleTurnedState, exampleState,
        exampleAccelBias, X]
      norm_num
    · rw [show (8 : Nat) = 7 + Y.val from rfl, hy]
      simp [RotationMatrix.mulVec, SubState.vector, exampleTurnedState, exampleState,
        exampleAccelBias, Y]
    · rw [show (9 : Nat) = 7 + Z.val from rfl, hz]
      simp [RotationMatrix.mulVec, SubState.vector, exampleTurnedState, exampleState,
        exampleAccelBias, Z]
  · obtain ⟨m1, r, hp, hr, hx, hy, hz, -⟩ :=
      AccelerometerModel.prepareUpdate_getDerivative 128 256 exampleAccelerometerModel
        (fun _ => 9) exampleHorizontalState 0 ⟨7, 6⟩ exampleAccelBias rfl rfl rfl
    refine ⟨m1, r, hp, hr, ?_, ?_, ?_⟩
    · rw [show (7 : Nat) = 7 + X.val from rfl, hx]
      simp [RotationMatrix.mulVec, SubState.vector, exampleHorizontalState,
        exampleTurnedState, exampleState, exampleAccelBias, X]
      norm_num
    · rw [show (8 : Nat) = 7 + Y.val from rfl, hy]
      simp [RotationMatrix.mulVec, SubState.vector, exampleHorizontalState,
        exampleTurnedState, exampleState, exampleAccelBias, Y]
    · rw [show (9 : Nat) = 7 + Z.val from rfl, hz]
      exact if_neg (by decide)

/-- The velocity-bias block of `AccelerometerModel::getStateJacobian` when the
orientation pointer is non-null and the bias block does not share a column with
the orientation block: the rows X and Y are the rows X and Y of `R` when
`STATE_VELOCITY_XY` is set and zero otherwise, the row Z is the row Z of `R`
when `STATE_VELOCITY_Z` is set and zero otherwise. -/
theorem AccelerometerModel.getStateJacobian_velocity_bias_block
    (STATE_VELOCITY_XY STATE_VELOCITY_Z : SystemStatus) (m : AccelerometerModel α)
    (A : SystemMatrix α) (state : State α) (velocity bias orientation : SubState)
    (hv : state.velocity = some velocity) (ha : state.acceleration = none)
    (hb : m.bias_ = some bias) (ho : state.orientation = some orientation)
    (hd : orientation.covarianceIndex + 3 ≤ bias.covarianceIndex ∨
      bias.covarianceIndex + 3 ≤ orientation.covarianceIndex) :
    ∃ J, m.getStateJacobian STATE_VELOCITY_XY STATE_VELOCITY_Z A state = some J ∧
      ∀ j : Fin 3,
        J (velocity.covarianceIndex + X.val) (bias.covarianceIndex + j.val)
          = (if state.getSystemStatus &&& STATE_VELOCITY_XY ≠ 0 then state.R X j else 0) ∧
        J (velocity.covarianceIndex + Y.val) (bias.covarianceIndex + j.val)
          = (if state.getSystemStatus &&& STATE_VELOCITY_XY ≠ 0 then state.R Y j else 0) ∧
        J (velocity.covarianceIndex + Z.val) (bias.covarianceIndex + j.val)
          = (if state.getSystemStatus &&& STATE_VELOCITY_Z ≠ 0 then state.R Z j else 0) := by
  obtain ⟨J, hJ, -, hbias, -, -⟩ := AccelerometerModel.getStateJacobian_entries
    STATE_VELOCITY_XY STATE_VELOCITY_Z m A state velocity bias orientation hv ha hb ho
  refine ⟨J, hJ, fun j => ⟨?_, ?_, ?_⟩⟩
  · simpa [X, Z] using hbias hd 0 j
  · simpa [Y, Z] using hbias hd 1 j
  · simpa [Z] using hbias hd 2 j

/-- C4, at the input on which the code fails: a state with a velocity block, no
acceleration block and no orientation block, with `STATE_VELOCITY_XY` set.
After the rows X and Y of the velocity-bias block have been written, line 138
dereferences the null orientation pointer, and the hook does not return a
Jacobian whose velocity-bias block could hold the rows of `R`. -/
theorem AccelerometerModel.getStateJacobian_no_orientation :
    examplePositionVelocityState.velocity = some ⟨3, 3⟩ ∧
    examplePositionVelocityState.acceleration = none ∧
    examplePositionVelocityState.orientation = none ∧
    examplePositionVelocityState.getSystemStatus &&& 128 ≠ 0 ∧
    exampleAccelerometerModel.bias_ = some exampleAccelBias ∧
    exampleAccelerometerModel.getStateJacobian 128 256 (fun _ _ => 0)
      examplePositionVelocityState = none := by
  refine ⟨rfl, rfl, rfl, by decide, rfl, ?_⟩
  simp [AccelerometerModel.getStateJacobian, examplePositionVelocityState, exampleTurnedState,
    exampleState, exampleAccelerometerModel]

/-- C5. Accelerometer axis independence, with velocity and orientation present
and acceleration absent, for every cached `bias_nav_`.  When only
`STATE_VELOCITY_XY` is set, the Z entry of the velocity slice of the derivative
and the row Z of the velocity-bias and velocity-orientation blocks of the
Jacobian are zero, while the X and Y entries of the slice hold the X and Y
components of `bias_nav_`, the rows X and Y of the velocity-orientation block
hold the rows X and Y of the cross term and the rows X and Y of the
velocity-bias block hold the rows X and Y of `R` (the bias block lying on other
columns than the orientation block); when only `STATE_VELOCITY_Z` is set, the
X and Y entries and rows are zero and the Z entry and rows hold the Z component
and the rows Z. -/
theorem AccelerometerModel.axis_independence
    (STATE_VELOCITY_XY STATE_VELOCITY_Z : SystemStatus) (m : AccelerometerModel α)
    (x_dot : StateVector α) (A : SystemMatrix α) (state : State α)
    (velocity bias orientation : SubState)
    (hv : state.velocity = some velocity) (ha : state.acceleration = none)
    (ho : state.orientation = some orientation) (hb : m.bias_ = some bias) :
    ∃ r J, m.getDerivative STATE_VELOCITY_XY STATE_VELOCITY_Z x_dot state = some r ∧
      m.getStateJacobian STATE_VELOCITY_XY STATE_VELOCITY_Z A state = some J ∧
      ((state.getSystemStatus &&& STATE_VELOCITY_XY ≠ 0 ∧
          state.getSystemStatus &&& STATE_VELOCITY_Z = 0) →
        r (velocity.vectorIndex + Z.val) = 0 ∧
        (∀ j : Fin 3,
          J (velocity.covarianceIndex + Z.val) (bias.covarianceIndex + j.val) = 0 ∧
          J (velocity.covarianceIndex + Z.val) (orientation.covarianceIndex + j.val) = 0) ∧
        r (velocity.vectorIndex + X.val) = m.bias_nav_ X ∧
        r (velocity.vectorIndex + Y.val) = m.bias_nav_ Y ∧
        (∀ j : Fin 3,
          J (velocity.covarianceIndex + X.val) (orientation.covarianceIndex + j.val)
            = orientationCrossTerm m.bias_nav_ X j ∧
          J (velocity.covarianceIndex + Y.val) (orientation.covarianceIndex + j.val)
            = orientationCrossTerm m.bias_nav_ Y j) ∧
        (orientation.covarianceIndex + 3 ≤ bias.covarianceIndex ∨
            bias.covarianceIndex + 3 ≤ orientation.covarianceIndex →
          ∀ j : Fin 3,
            J (velocity.covarianceIndex + X.val) (bias.covarianceIndex + j.val)
              = state.R X j ∧
            J (velocity.covarianceIndex + Y.val) (bias.covarianceIndex + j.val)
              = state.R Y j)) ∧
      ((state.getSystemStatus &&& STATE_VELOCITY_Z ≠ 0 ∧
          state.getSystemStatus &&& STATE_VELOCITY_XY = 0) →
        r (velocity.vectorIndex + X.val) = 0 ∧
        r (velocity.vectorIndex + Y.val) = 0 ∧
        (∀ j : Fin 3,
          J (velocity.covarianceIndex + X.val) (bias.covarianceIndex + j.val) = 0 ∧
          J (velocity.covarianceIndex + Y.val) (bias.covarianceIndex + j.val) = 0 ∧
          J (velocity.covarianceIndex + X.val) (orientation.covarianceIndex + j.val) = 0 ∧
          J (velocity.covarianceIndex + Y.val) (orientation.covarianceIndex + j.val) = 0) ∧
        r (velocity.vectorIndex + Z.val) = m.bias_nav_ Z ∧
        (∀ j : Fin 3,
          J (velocity.covarianceIndex + Z.val) (orientation.covarianceIndex + j.val)
            = orientationCrossTerm m.bias_nav_ Z j) ∧
        (orientation.covarianceIndex + 3 ≤ bias.covarianceIndex ∨
            bias.covarianceIndex + 3 ≤ orientation.covarianceIndex →
          ∀ j : Fin 3,
            J (velocity.covarianceIndex + Z.val) (bias.covarianceIndex + j.val)
              = state.R Z j)) := by
  obtain ⟨r, hr, hval, -⟩ := AccelerometerModel.getDerivative_entries
    STATE_VELOCITY_XY STATE_VELOCITY_Z m x_dot state velocity hv ha
  obtain ⟨J, hJ, hori, hbias, hrow, -⟩ := AccelerometerModel.getStateJacobian_entries
    STATE_VELOCITY_XY STATE_VELOCITY_Z m A state velocity bias orientation hv ha hb ho
  refine ⟨r, J, hr, hJ, ?_, ?_⟩
  · rintro ⟨hxy, hz⟩
    refine ⟨?_, fun j => ⟨?_, ?_⟩, ?_, ?_, fun j => ⟨?_, ?_⟩, fun hd j => ⟨?_, ?_⟩⟩
    · simpa [Z, hz] using hval 2
    · exact hrow 2 _ (by simp [Z, hz])
    · exact hrow 2 _ (by simp [Z, hz])
    · simpa [X, Z, hxy] using hval 0
    · simpa [Y, Z, hxy] using hval 1
    · simpa [X, Z, hxy] using hori 0 j
    · simpa [Y, Z, hxy] using hori 1 j
    · simpa [X, Z, hxy] using hbias hd 0 j
    · simpa [Y, Z, hxy] using hbias hd 1 j
  · rintro ⟨hz, hxy⟩
    refine ⟨?_, ?_, fun j => ⟨?_, ?_, ?_, ?_⟩, ?_, fun j => ?_, fun hd j => ?_⟩
    · simpa [X, Z, hxy] using hval 0
    · simpa [Y, Z, hxy] using hval 1
    · exact hrow 0 _ (by simp [Z, hxy])
    · exact hrow 1 _ (by simp [Z, hxy])
    · exact hrow 0 _ (by simp [Z, hxy])
    · exact hrow 1 _ (by simp [Z, hxy])
    · simpa [Z, hz] using hval 2
    · simpa [Z, hz] using hori 2 j
    · simpa [Z, hz] using hbias hd 2 j

/-- C5 at concrete inputs: the cache holds `(2, 3, 4)`; with only the horizontal
bit set the velocity slice 7..9 is `(2, 3, 0)` and the row 8 of the Jacobian is
zero in the bias columns 9..11 and the orientation columns 0..2; with only the
vertical bit set the slice is `(0, 0, 4)` and the rows 6 and 7 are zero. -/
theorem AccelerometerModel.axis_independence_witness :
    (∃ r J, exampleAccelerometerModel.getDerivative 128 256 (fun _ => 9)
        exampleHorizontalState = some r ∧
      exampleAccelerometerModel.getStateJacobian 128 256 (fun _ _ => 9)
        exampleHorizontalState = some J ∧
      r 7 = 2 ∧ r 8 = 3 ∧ r 9 = 0 ∧ J 8 9 = 0 ∧ J 8 10 = 0 ∧ J 8 11 = 0 ∧
      J 8 0 = 0 ∧ J 8 1 = 0 ∧ J 8 2 = 0 ∧ J 6 1 = 4 ∧ J 7 0 = -4) ∧
    (∃ r J, exampleAccelerometerModel.getDerivative 128 256 (fun _ => 9)
        exampleVerticalState = some r ∧
      exampleAccelerometerModel.getStateJacobian 128 256 (fun _ _ => 9)
        exampleVerticalState = some J ∧
      r 7 = 0 ∧ r 8 = 0 ∧ r 9 = 4 ∧ J 6 9 = 0 ∧ J 7 10 = 0 ∧
      J 6 1 = 0 ∧ J 7 0 = 0 ∧ J 8 0 = 3 ∧ J 8 1 = -2) := by
  constructor
  · obtain ⟨r, J, hr, hJ, hxy, -⟩ :=
      AccelerometerModel.axis_independence 128 256 exampleAccelerometerModel (fun _ => 9)
        (fun _ _ => 9) exampleHorizontalState ⟨7, 6⟩ exampleAccelBias ⟨0, 0⟩ rfl rfl rfl rfl
    obtain ⟨h1, h2, h3, h4, h5, -⟩ := hxy ⟨by decide, by decide⟩
    exact ⟨r, J, hr, hJ, h3, h4, h1, (h2 0).1, (h2 1).1, (h2 2).1, (h2 0).2, (h2 1).2,
      (h2 2).2, (h5 1).1, (h5 0).2⟩
  · obtain ⟨r, J, hr, hJ, -, hz⟩ :=
      AccelerometerModel.axis_independence 128 256 exampleAccelerometerModel (fun _ => 9)
        (fun _ _ => 9) exampleVerticalState ⟨7, 6⟩ exampleAccelBias ⟨0, 0⟩ rfl rfl rfl rfl
    obtain ⟨h1, h2, h3, h4, h5, -⟩ := hz ⟨by decide, by decide⟩
    exact ⟨r, J, hr, hJ, h1, h2, h4, (h3 0).1, (h3 1).2.1, (h3 1).2.2.1, (h3 0).2.2.2,
      h5 0, h5 1⟩

/-- C6. The accelerometer coupling gate: when the velocity block is absent or the
acceleration block is present, `AccelerometerModel::getDerivative` returns an
all-zero `x_dot` and `AccelerometerModel::getStateJacobian` an all-zero `A`,
whatever the status bits, the bias, the rotation, the cache, the pointers to
the bias and orientation blocks, and the prior contents of `x_dot` and `A`. -/
theorem AccelerometerModel.gate_closed
    (STATE_VELOCITY_XY STATE_VELOCITY_Z : SystemStatus) (m : AccelerometerModel α)
    (x_dot : StateVector α) (A : SystemMatrix α) (state : State α)
    (h : state.velocity = none ∨ state.acceleration ≠ none) :
    m.getDerivative STATE_VELOCITY_XY STATE_VELOCITY_Z x_dot state = some (fun _ => 0) ∧
    m.getStateJacobian STATE_VELOCITY_XY STATE_VELOCITY_Z A state = some (fun _ _ => 0) := by
  rcases h with h | h
  · constructor
    · simp [AccelerometerModel.getDerivative, h]
      rfl
    · simp [AccelerometerModel.getStateJacobian, h]
      rfl
  · obtain ⟨a, ha⟩ := Option.ne_none_iff_exists'.mp h
    constructor
    · simp [AccelerometerModel.getDerivative, ha]
      rfl
    · simp [AccelerometerModel.getStateJacobian, ha]
      rfl

/-- C6 at a concrete input: the full state has an acceleration block. -/
theorem AccelerometerModel.gate_closed_witness :
    exampleFullState.acceleration ≠ none ∧
    exampleAccelerometerModel.getDerivative 128 256 (fun _ => 9) exampleFullState
      = some (fun _ => 0) ∧
    exampleAccelerometerModel.getStateJacobian 128 256 (fun _ _ => 9) exampleFullState
      = some (fun _ _ => 0) :=
  ⟨by simp [exampleFullState],
    AccelerometerModel.gate_closed 128 256 exampleAccelerometerModel (fun _ => 9)
      (fun _ _ => 9) exampleFullState (Or.inr (by simp [exampleFullState]))⟩

/-- C7. The skew property of the orientation cross term, with velocity and
orientation present and acceleration absent, for every cached `bias_nav_`: the
velocity-orientation block `M` of the Jacobian has a zero diagonal; with both
`STATE_VELOCITY_XY` and `STATE_VELOCITY_Z` set, `M(i,j) = -M(j,i)` for all
`i`, `j`; the matrix of the cross term is antisymmetric, and a row of `M` is
the row of that matrix (in all three columns) when the status bit of its axis
group is set and a zero row otherwise. -/
theorem AccelerometerModel.orientation_cross_term_skew
    (STATE_VELOCITY_XY STATE_VELOCITY_Z : SystemStatus) (m : AccelerometerModel α)
    (A : SystemMatrix α) (state : State α) (velocity bias orientation : SubState)
    (hv : state.velocity = some velocity) (ha : state.acceleration = none)
    (ho : state.orientation = some orientation) (hb : m.bias_ = some bias) :
    ∃ J, m.getStateJacobian STATE_VELOCITY_XY STATE_VELOCITY_Z A state = some J ∧
      (∀ i : Fin 3,
        J (velocity.covarianceIndex + i.val) (orientation.covarianceIndex + i.val) = 0) ∧
      ((state.getSystemStatus &&& STATE_VELOCITY_XY ≠ 0 ∧
          state.getSystemStatus &&& STATE_VELOCITY_Z ≠ 0) →
        ∀ i j : Fin 3,
          J (velocity.covarianceIndex + i.val) (orientation.covarianceIndex + j.val)
            = -J (velocity.covarianceIndex + j.val) (orientation.covarianceIndex + i.val)) ∧
      (∀ i j : Fin 3,
        orientationCrossTerm m.bias_nav_ i j = -orientationCrossTerm m.bias_nav_ j i) ∧
      (∀ j : Fin 3,
        J (velocity.covarianceIndex + X.val) (orientation.covarianceIndex + j.val)
          = (if state.getSystemStatus &&& STATE_VELOCITY_XY ≠ 0
              then orientationCrossTerm m.bias_nav_ X j else 0) ∧
        J (velocity.covarianceIndex + Y.val) (orientation.covarianceIndex + j.val)
          = (if state.getSystemStatus &&& STATE_VELOCITY_XY ≠ 0
              then orientationCrossTerm m.bias_nav_ Y j else 0) ∧
        J (velocity.covarianceIndex + Z.val) (orientation.covarianceIndex + j.val)
          = (if state.getSystemStatus &&& STATE_VELOCITY_Z ≠ 0
              then orientationCrossTerm m.bias_nav_ Z j else 0)) := by
  obtain ⟨J, hJ, hori, -, -, -⟩ := AccelerometerModel.getStateJacobian_entries
    STATE_VELOCITY_XY STATE_VELOCITY_Z m A state velocity bias orientation hv ha hb ho
  have hskew : ∀ i j : Fin 3,
      orientationCrossTerm m.bias_nav_ i j = -orientationCrossTerm m.bias_nav_ j i := by
    intro i j
    fin_cases i <;> fin_cases j <;> simp [orientationCrossTerm, X, Y]
  refine ⟨J, hJ, ?_, ?_, hskew, fun j => ⟨?_, ?_, ?_⟩⟩
  · intro i
    rw [hori i i]
    fin_cases i <;> simp [orientationCrossTerm, X, Y]
  · rintro ⟨hxy, hz⟩ i j
    rw [hori i j, hori j i]
    have hi : (if i = Z then state.getSystemStatus &&& STATE_VELOCITY_Z ≠ 0
        else state.getSystemStatus &&& STATE_VELOCITY_XY ≠ 0) := by
      split_ifs <;> assumption
    have hj : (if j = Z then state.getSystemStatus &&& STATE_VELOCITY_Z ≠ 0
        else state.getSystemStatus &&& STATE_VELOCITY_XY ≠ 0) := by
      split_ifs <;> assumption
    rw [if_pos hi, if_pos hj]
    exact hskew i j
  · simpa [X, Z] using hori 0 j
  · simpa [Y, Z] using hori 1 j
  · simpa [Z] using hori 2 j

/-- C7 at concrete inputs: the cache holds `(2, 3, 4)`; with both bits set the
velocity-orientation block (rows 6..8, columns 0..2) is
`[[0, 4, -3], [-4, 0, 2], [3, -2, 0]]`; with only the horizontal bit set its
rows X and Y are the same and its row Z is zero. -/
theorem AccelerometerModel.orientation_cross_term_skew_witness :
    (∃ J, exampleAccelerometerModel.getStateJacobian 128 256 (fun _ _ => 9)
        exampleTurnedState = some J ∧
      J 6 0 = 0 ∧ J 6 1 = 4 ∧ J 6 2 = -3 ∧
      J 7 0 = -4 ∧ J 7 1 = 0 ∧ J 7 2 = 2 ∧
      J 8 0 = 3 ∧ J 8 1 = -2 ∧ J 8 2 = 0 ∧ J 6 1 = -J 7 0) ∧
    (∃ J, exampleAccelerometerModel.getStateJacobian 128 256 (fun _ _ => 9)
        exampleHorizontalState = some J ∧
      J 6 1 = 4 ∧ J 6 2 = -3 ∧ J 7 0 = -4 ∧ J 7 2 = 2 ∧
      J 8 0 = 0 ∧ J 8 1 = 0 ∧ J 8 2 = 0) := by
  constructor
  · obtain ⟨J, hJ, hdiag, hanti, -, hrows⟩ :=
      AccelerometerModel.orientation_cross_term_skew 128 256 exampleAccelerometerModel
        (fun _ _ => 9) exampleTurnedState ⟨7, 6⟩ exampleAccelBias ⟨0, 0⟩ rfl rfl rfl rfl
    exact ⟨J, hJ, hdiag 0, (hrows 1).1, (hrows 2).1, (hrows 0).2.1, hdiag 1, (hrows 2).2.1,
      (hrows 0).2.2, (hrows 1).2.2, hdiag 2, hanti ⟨by decide, by decide⟩ 0 1⟩
  · obtain ⟨J, hJ, -, -, -, hrows⟩ :=
      AccelerometerModel.orientation_cross_term_skew 128 256 exampleAccelerometerModel
        (fun _ _ => 9) exampleHorizontalState ⟨7, 6⟩ exampleAccelBias ⟨0, 0⟩ rfl rfl rfl rfl
    exact ⟨J, hJ, (hrows 1).1, (hrows 2).1, (hrows 0).2.1, (hrows 2).2.1, (hrows 0).2.2,
      (hrows 1).2.2, (hrows 2).2.2⟩

/-- C8. The scenario with the identity rotation, for every bias `b`: with velocity
and orientation present, acceleration absent and both velocity bits set,
`prepareUpdate` succeeds and caches `bias_nav_ = b`, `getDerivative` writes `b`
into the velocity slice, the velocity-bias block of `getStateJacobian` is the
identity, and the velocity-orientation block has the entry `b.z` at (X,Y),
`-b.y` at (X,Z), `-b.z` at (Y,X) and a zero diagonal. -/
theorem AccelerometerModel.identity_rotation_scenario
    (STATE_VELOCITY_XY STATE_VELOCITY_Z : SystemStatus) (m : AccelerometerModel α)
    (x_dot : StateVector α) (A : SystemMatrix α) (s : State α) (dt : α)
    (velocity bias orientation : SubState)
    (hR : s.R = fun i j => if i = j then 1 else 0)
    (hv : s.velocity = some velocity) (ho : s.orientation = some orientation)
    (ha : s.acceleration = none)
    (hxy : s.getSystemStatus &&& STATE_VELOCITY_XY ≠ 0)
    (hz : s.getSystemStatus &&& STATE_VELOCITY_Z ≠ 0)
    (hb : m.bias_ = some bias)
    (hd : orientation.covarianceIndex + 3 ≤ bias.covarianceIndex ∨
      bias.covarianceIndex + 3 ≤ orientation.covarianceIndex) :
    ∃ m1 r J, m.prepareUpdate s dt = some (true, m1, s) ∧
      m1.bias_nav_ = bias.vector s ∧
      m1.getDerivative STATE_VELOCITY_XY STATE_VELOCITY_Z x_dot s = some r ∧
      (∀ i : Fin 3, r (velocity.vectorIndex + i.val) = bias.vector s i) ∧
      m1.getStateJacobian STATE_VELOCITY_XY STATE_VELOCITY_Z A s = some J ∧
      (∀ i j : Fin 3, J (velocity.covarianceIndex + i.val) (bias.covarianceIndex + j.val)
        = if i = j then 1 else 0) ∧
      J (velocity.covarianceIndex + X.val) (orientation.covarianceIndex + Y.val)
        = bias.vector s Z ∧
      J (velocity.covarianceIndex + X.val) (orientation.covarianceIndex + Z.val)
        = -bias.vector s Y ∧
      J (velocity.covarianceIndex + Y.val) (orientation.covarianceIndex + X.val)
        = -bias.vector s Z ∧
      (∀ i : Fin 3,
        J (velocity.covarianceIndex + i.val) (orientation.covarianceIndex + i.val) = 0) := by
  have hnav : s.R.mulVec (bias.vector s) = bias.vector s := by
    funext i
    fin_cases i <;> simp [RotationMatrix.mulVec, hR]
  have hen : ∀ i : Fin 3, (if i = Z then s.getSystemStatus &&& STATE_VELOCITY_Z ≠ 0
      else s.getSystemStatus &&& STATE_VELOCITY_XY ≠ 0) := by
    intro i
    split_ifs <;> assumption
  obtain ⟨r, hr, hval, -⟩ := AccelerometerModel.getDerivative_entries
    STATE_VELOCITY_XY STATE_VELOCITY_Z
    ({ m with bias_nav_ := s.R.mulVec (bias.vector s) } : AccelerometerModel α) x_dot s
    velocity hv ha
  obtain ⟨J, hJ, hori, hbias, -, -⟩ := AccelerometerModel.getStateJacobian_entries
    STATE_VELOCITY_XY STATE_VELOCITY_Z
    ({ m with bias_nav_ := s.R.mulVec (bias.vector s) } : AccelerometerModel α) A s
    velocity bias orientation hv ha hb ho
  refine ⟨{ m with bias_nav_ := s.R.mulVec (bias.vector s) }, r, J,
    by simp [AccelerometerModel.prepareUpdate, hb], hnav, hr, ?_, hJ, ?_, ?_, ?_, ?_, ?_⟩
  · intro i
    rw [hval i, if_pos (hen i), hnav]
  · intro i j
    rw [hbias hd i j, if_pos (hen i), hR]
  · rw [hori X Y, if_pos (hen X), hnav]
    simp [orientationCrossTerm, X, Y, Z]
  · rw [hori X Z, if_pos (hen X), hnav]
    simp [orientationCrossTerm, X, Y, Z]
  · rw [hori Y X, if_pos (hen Y), hnav]
    simp [orientationCrossTerm, X, Y, Z]
  · intro i
    rw [hori i i, if_pos (hen i)]
    fin_cases i <;> simp [orientationCrossTerm, X, Y]

/-- C8 at the bias of the scenario, `b = (0.1, -0.2, 0.05)`: the cache and the
velocity slice 7..9 hold `(1/10, -1/5, 1/20)`, the velocity-bias block (rows
6..8, columns 9..11) is the identity, and the velocity-orientation block (rows
6..8, columns 0..2) has `1/20` at (X,Y), `1/5` at (X,Z), `-1/20` at (Y,X) and
a zero diagonal. -/
theorem AccelerometerModel.identity_rotation_scenario_witness :
    ∃ m1 r J, exampleAccelerometerModel.prepareUpdate exampleState 0
        = some (true, m1, exampleState) ∧
      m1.bias_nav_ 0 = 1 / 10 ∧ m1.bias_nav_ 1 = -1 / 5 ∧ m1.bias_nav_ 2 = 1 / 20 ∧
      m1.getDerivative 128 256 (fun _ => 9) exampleState = some r ∧
      r 7 = 1 / 10 ∧ r 8 = -1 / 5 ∧ r 9 = 1 / 20 ∧
      m1.getStateJacobian 128 256 (fun _ _ => 9) exampleState = some J ∧
      J 6 9 = 1 ∧ J 6 10 = 0 ∧ J 6 11 = 0 ∧
      J 7 9 = 0 ∧ J 7 10 = 1 ∧ J 7 11 = 0 ∧
      J 8 9 = 0 ∧ J 8 10 = 0 ∧ J 8 11 = 1 ∧
      J 6 1 = 1 / 20 ∧ J 6 2 = 1 / 5 ∧ J 7 0 = -1 / 20 ∧
      J 6 0 = 0 ∧ J 7 1 = 0 ∧ J 8 2 = 0 := by
  obtain ⟨m1, r, J, hp, hnav, hr, hval, hJ, hbias, hxy, hxz, hyx, hdiag⟩ :=
    AccelerometerModel.identity_rotation_scenario 128 256 exampleAccelerometerModel
      (fun _ => 9) (fun _ _ => 9) exampleState 0 ⟨7, 6⟩ exampleAccelBias ⟨0, 0⟩
      rfl rfl rfl rfl (by decide) (by decide) rfl (Or.inl (by decide))
  have hb0 : exampleAccelBias.vector exampleState 0 = 1 / 10 := by
    simp [SubState.vector, exampleState, exampleAccelBias]
  have hb1 : exampleAccelBias.vector exampleState 1 = -1 / 5 := by
    simp [SubState.vector, exampleState, exampleAccelBias]
  have hb2 : exampleAccelBias.vector exampleState 2 = 1 / 20 := by
    simp [SubState.vector, exampleState, exampleAccelBias]
  have hxz2 : J 6 2 = 1 / 5 := by
    have h := hxz
    rw [show exampleAccelBias.vector exampleState Y = -1 / 5 from hb1] at h
    rw [show (6 : Nat) = 6 + X.val from rfl, show (2 : Nat) = 0 + Z.val from rfl]
    rw [show ((⟨7, 6⟩ : SubState).covarianceIndex) = 6 from rfl,
      show ((⟨0, 0⟩ : SubState).covarianceIndex) = 0 from rfl] at h
    rw [h]
    norm_num
  have hyx2 : J 7 0 = -1 / 20 := by
    have h := hyx
    rw [show exampleAccelBias.vector exampleState Z = 1 / 20 from hb2] at h
    rw [show (7 : Nat) = 6 + Y.val from rfl, show (0 : Nat) = 0 + X.val from rfl]
    rw [show ((⟨7, 6⟩ : SubState).covarianceIndex) = 6 from rfl,
      show ((⟨0, 0⟩ : SubState).covarianceIndex) = 0 from rfl] at h
    rw [h]
    norm_num
  exact ⟨m1, r, J, hp, by rw [hnav]; exact hb0, by rw [hnav]; exact hb1,
    by rw [hnav]; exact hb2, hr, (hval 0).trans hb0, (hval 1).trans hb1,
    (hval 2).trans hb2, hJ,
    hbias 0 0, hbias 0 1, hbias 0 2, hbias 1 0, hbias 1 1, hbias 1 2,
    hbias 2 0, hbias 2 1, hbias 2 2, hxy.trans hb2, hxz2, hyx2,
    hdiag 0, hdiag 1, hdiag 2⟩

end AccelerometerTheorems

/-! ## The process noise of both models -/

section NoiseTheorems

variable {α : Type} [Ring α] {Inputs : Type}

/-- C9. Outside the initialisation `getSystemNoise` does nothing: for both models,
any number of calls with `init = false`, on any states and inputs, returns `Q`
with every entry unchanged (and a single call does, whatever the bias pointer
of the model is). -/
theorem getSystemNoise_not_initializing (g : GyroModel α) (a : AccelerometerModel α)
    (calls : List (State α × Inputs)) (Q : NoiseVariance α) :
    g.getSystemNoiseCalls false calls Q = some Q ∧
    a.getSystemNoiseCalls false calls Q = some Q ∧
    (∀ (state : State α) (inputs : Inputs),
      g.getSystemNoise Q state inputs false = some Q ∧
      a.getSystemNoise Q state inputs false = some Q) := by
  have hg : ∀ (state : State α) (inputs : Inputs),
      g.getSystemNoise Q state inputs false = some Q := by
    intro state inputs
    simp [GyroModel.getSystemNoise]
  have ha : ∀ (state : State α) (inputs : Inputs),
      a.getSystemNoise Q state inputs false = some Q := by
    intro state inputs
    simp [AccelerometerModel.getSystemNoise]
  refine ⟨?_, ?_, fun state inputs => ⟨hg state inputs, ha state inputs⟩⟩
  · induction calls with
    | nil => rfl
    | cons call calls ih =>
      rw [GyroModel.getSystemNoiseCalls, hg call.1 call.2]
      exact ih
  · induction calls with
    | nil => rfl
    | cons call calls ih =>
      rw [AccelerometerModel.getSystemNoiseCalls, ha call.1 call.2]
      exact ih

/-- C10. The initialising call of `getSystemNoise`: for both models, every `Q` and
every drift parameter, one call with `init = true` sets the three diagonal
entries of the bias block of the model to the square of the drift and leaves
every other entry of `Q` as it was; a second initialising call returns the
same matrix. -/
theorem getSystemNoise_initializing (g : GyroModel α) (a : AccelerometerModel α)
    (Q : NoiseVariance α) (state : State α) (inputs : Inputs) (gyroBias accelBias : SubState)
    (hg : g.bias_ = some gyroBias) (ha : a.bias_ = some accelBias) :
    (∃ Q1, g.getSystemNoise Q state inputs true = some Q1 ∧
      (∀ i : Fin 3, Q1 (gyroBias.covarianceIndex + i.val) (gyroBias.covarianceIndex + i.val)
        = g.rate_drift_ ^ 2) ∧
      (∀ r c, ¬ (r = c ∧ gyroBias.covarianceIndex ≤ r ∧ r < gyroBias.covarianceIndex + 3) →
        Q1 r c = Q r c) ∧
      g.getSystemNoise Q1 state inputs true = some Q1) ∧
    (∃ Q1, a.getSystemNoise Q state inputs true = some Q1 ∧
      (∀ i : Fin 3, Q1 (accelBias.covarianceIndex + i.val) (accelBias.covarianceIndex + i.val)
        = a.acceleration_drift_ ^ 2) ∧
      (∀ r c, ¬ (r = c ∧ accelBias.covarianceIndex ≤ r ∧ r < accelBias.covarianceIndex + 3) →
        Q1 r c = Q r c) ∧
      a.getSystemNoise Q1 state inputs true = some Q1) := by
  constructor
  · refine ⟨_, by simp [GyroModel.getSystemNoise, hg]; rfl, ?_, ?_, ?_⟩
    · intro i
      fin_cases i <;>
        simp [SubState.blockSet, BIAS_GYRO_X, BIAS_GYRO_Y, BIAS_GYRO_Z]
    · intro r c hrc
      simp only [SubState.blockSet, BIAS_GYRO_X, BIAS_GYRO_Y, BIAS_GYRO_Z, Fin.val_zero,
        Fin.val_one, Fin.val_two]
      split_ifs <;> first | rfl | (exfalso; omega)
    · simp only [GyroModel.getSystemNoise, hg]
      simp only [Bool.not_true, Bool.false_eq_true, if_false, Option.pure_def,
        Option.bind_eq_bind, Option.some_bind, Option.some.injEq]
      funext r c
      simp only [SubState.blockSet]
      split_ifs <;> rfl
  · refine ⟨_, by simp [AccelerometerModel.getSystemNoise, ha]; rfl, ?_, ?_, ?_⟩
    · intro i
      fin_cases i <;>
        simp [SubState.blockSet, BIAS_ACCEL_X, BIAS_ACCEL_Y, BIAS_ACCEL_Z]
    · intro r c hrc
      simp only [SubState.blockSet, BIAS_ACCEL_X, BIAS_ACCEL_Y, BIAS_ACCEL_Z, Fin.val_zero,
        Fin.val_one, Fin.val_two]
      split_ifs <;> first | rfl | (exfalso; omega)
    · simp only [AccelerometerModel.getSystemNoise, ha]
      simp only [Bool.not_true, Bool.false_eq_true, if_false, Option.pure_def,
        Option.bind_eq_bind, Option.some_bind, Option.some.injEq]
      funext r c
      simp only [SubState.blockSet]
      split_ifs <;> rfl

/-- C10 at concrete inputs: from a `Q` that holds 9 everywhere, the gyro model
(drift `1/500`, bias block at 12) and the accelerometer model (drift `1/1000`,
bias block at 9) write the square of their drift on the diagonal of their
block and leave the 9 next to it. -/
theorem getSystemNoise_initializing_witness :
    (∃ Q1, exampleGyroModel.getSystemNoise (fun _ _ => 9) exampleState () true = some Q1 ∧
      Q1 12 12 = 1 / 250000 ∧ Q1 13 13 = 1 / 250000 ∧ Q1 14 14 = 1 / 250000 ∧
      Q1 12 13 = 9 ∧ Q1 11 11 = 9 ∧ Q1 15 15 = 9 ∧
      exampleGyroModel.getSystemNoise Q1 exampleState () true = some Q1) ∧
    (∃ Q1, exampleAccelerometerModel.getSystemNoise (fun _ _ => 9) exampleState () true
        = some Q1 ∧
      Q1 9 9 = 1 / 1000000 ∧ Q1 10 10 = 1 / 1000000 ∧ Q1 11 11 = 1 / 1000000 ∧
      Q1 9 10 = 9 ∧ Q1 8 8 = 9 ∧ Q1 12 12 = 9 ∧
      exampleAccelerometerModel.getSystemNoise Q1 exampleState () true = some Q1) := by
  obtain ⟨⟨G, hG, hGd, hGo, hG2⟩, ⟨C, hC, hCd, hCo, hC2⟩⟩ :=
    getSystemNoise_initializing exampleGyroModel exampleAccelerometerModel (fun _ _ => 9)
      exampleState () exampleGyroBias exampleAccelBias rfl rfl
  have hgd : exampleGyroModel.rate_drift_ ^ 2 = 1 / 250000 := by
    norm_num [exampleGyroModel]
  have hcd : exampleAccelerometerModel.acceleration_drift_ ^ 2 = 1 / 1000000 := by
    norm_num [exampleAccelerometerModel]
  refine ⟨⟨G, hG, (hGd 0).trans hgd, (hGd 1).trans hgd, (hGd 2).trans hgd,
      hGo 12 13 (by simp), hGo 11 11 (by simp [exampleGyroBias]),
      hGo 15 15 (by simp [exampleGyroBias]), hG2⟩,
    ⟨C, hC, (hCd 0).trans hcd, (hCd 1).trans hcd, (hCd 2).trans hcd,
      hCo 9 10 (by simp), hCo 8 8 (by simp [exampleAccelBias]),
      hCo 12 12 (by simp [exampleAccelBias]), hC2⟩⟩

end NoiseTheorems

/-! ## The bias block of the process noise -/

section NoiseBlockTheorems

variable {α : Type} [Ring α] {Inputs : Type}

/-- The bias block of `Q` after the initialising call of
`GyroModel::getSystemNoise`: the square of the drift on the diagonal, the
entries of the incoming `Q` off the diagonal. -/
theorem GyroModel.gyro_getSystemNoise_block (m : GyroModel α) (Q : NoiseVariance α)
    (state : State α) (inputs : Inputs) (bias : SubState) (hb : m.bias_ = some bias) :
    ∃ Q1, m.getSystemNoise Q state inputs true = some Q1 ∧
      ∀ i j : Fin 3, bias.block bias Q1 i j
        = if i = j then m.rate_drift_ ^ 2 else bias.block bias Q i j := by
  refine ⟨_, by simp [GyroModel.getSystemNoise, hb]; rfl, ?_⟩
  intro i j
  fin_cases i <;> fin_cases j <;>
    simp [SubState.block, SubState.blockSet, BIAS_GYRO_X, BIAS_GYRO_Y, BIAS_GYRO_Z]

/-- The bias block of `Q` after the initialising call of
`AccelerometerModel::getSystemNoise`: the square of the drift on the diagonal,
the entries of the incoming `Q` off the diagonal. -/
theorem AccelerometerModel.accelerometer_getSystemNoise_block (m : AccelerometerModel α)
    (Q : NoiseVariance α) (state : State α) (inputs : Inputs) (bias : SubState)
    (hb : m.bias_ = some bias) :
    ∃ Q1, m.getSystemNoise Q state inputs true = some Q1 ∧
      ∀ i j : Fin 3, bias.block bias Q1 i j
        = if i = j then m.acceleration_drift_ ^ 2 else bias.block bias Q i j := by
  refine ⟨_, by simp [AccelerometerModel.getSystemNoise, hb]; rfl, ?_⟩
  intro i j
  fin_cases i <;> fin_cases j <;>
    simp [SubState.block, SubState.blockSet, BIAS_ACCEL_X, BIAS_ACCEL_Y, BIAS_ACCEL_Z]

/-- C11, as stated, fails on a `Q` that is not zero off the diagonal: from a `Q`
that holds 9 everywhere the initialising call of the gyro model leaves the 9 at
the off-diagonal entry (X,Y) of its bias block (rows and columns 12..14), and
the accelerometer model does the same in its block (rows and columns 9..11). -/
theorem getSystemNoise_block_not_diagonal :
    (∃ Q1, exampleGyroModel.getSystemNoise (fun _ _ => 9) exampleState () true = some Q1 ∧
      Q1 12 13 = 9 ∧ exampleGyroBias.block exampleGyroBias Q1 X Y ≠ 0) ∧
    (∃ Q1, exampleAccelerometerModel.getSystemNoise (fun _ _ => 9) exampleState () true
        = some Q1 ∧
      Q1 9 10 = 9 ∧ exampleAccelBias.block exampleAccelBias Q1 X Y ≠ 0) := by
  constructor
  · obtain ⟨Q1, hQ1, hblock⟩ := GyroModel.gyro_getSystemNoise_block exampleGyroModel
      (fun _ _ => 9) exampleState () exampleGyroBias rfl
    have h : exampleGyroBias.block exampleGyroBias Q1 X Y = 9 := by
      rw [hblock X Y]
      simp [X, Y, SubState.block]
    exact ⟨Q1, hQ1, h, by rw [h]; norm_num⟩
  · obtain ⟨Q1, hQ1, hblock⟩ := AccelerometerModel.accelerometer_getSystemNoise_block
      exampleAccelerometerModel (fun _ _ => 9) exampleState () exampleAccelBias rfl
    have h : exampleAccelBias.block exampleAccelBias Q1 X Y = 9 := by
      rw [hblock X Y]
      simp [X, Y, SubState.block]
    exact ⟨Q1, hQ1, h, by rw [h]; norm_num⟩

/-- C11, amended.  For both models and every incoming `Q`, the initialising call
of `getSystemNoise` puts the square of the drift on the three diagonal entries
of the bias block of the model and leaves its six off-diagonal entries as they
were in the incoming `Q`; the block is the square of the drift times the
identity when the off-diagonal entries of the incoming block are zero. -/
theorem getSystemNoise_block_diagonal (g : GyroModel α) (a : AccelerometerModel α)
    (Q : NoiseVariance α) (state : State α) (inputs : Inputs) (gyroBias accelBias : SubState)
    (hg : g.bias_ = some gyroBias) (ha : a.bias_ = some accelBias) :
    (∃ Q1, g.getSystemNoise Q state inputs true = some Q1 ∧
      (∀ i j : Fin 3, gyroBias.block gyroBias Q1 i j
        = if i = j then g.rate_drift_ ^ 2 else gyroBias.block gyroBias Q i j) ∧
      ((∀ i j : Fin 3, i ≠ j → gyroBias.block gyroBias Q i j = 0) →
        ∀ i j : Fin 3, gyroBias.block gyroBias Q1 i j
          = if i = j then g.rate_drift_ ^ 2 else 0)) ∧
    (∃ Q1, a.getSystemNoise Q state inputs true = some Q1 ∧
      (∀ i j : Fin 3, accelBias.block accelBias Q1 i j
        = if i = j then a.acceleration_drift_ ^ 2 else accelBias.block accelBias Q i j) ∧
      ((∀ i j : Fin 3, i ≠ j → accelBias.block accelBias Q i j = 0) →
        ∀ i j : Fin 3, accelBias.block accelBias Q1 i j
          = if i = j then a.acceleration_drift_ ^ 2 else 0)) := by
  constructor
  · obtain ⟨Q1, hQ1, hblock⟩ :=
      GyroModel.gyro_getSystemNoise_block g Q state inputs gyroBias hg
    refine ⟨Q1, hQ1, hblock, ?_⟩
    intro hoff i j
    rw [hblock i j]
    by_cases hij : i = j
    · rw [if_pos hij, if_pos hij]
    · rw [if_neg hij, if_neg hij, hoff i j hij]
  · obtain ⟨Q1, hQ1, hblock⟩ :=
      AccelerometerModel.accelerometer_getSystemNoise_block a Q state inputs accelBias ha
    refine ⟨Q1, hQ1, hblock, ?_⟩
    intro hoff i j
    rw [hblock i j]
    by_cases hij : i = j
    · rw [if_pos hij, if_pos hij]
    · rw [if_neg hij, if_neg hij, hoff i j hij]

/-- C11, amended, at concrete inputs: from the zero matrix both models produce
the square of their drift times the identity in their bias block. -/
theorem getSystemNoise_block_diagonal_witness :
    (∃ Q1, exampleGyroModel.getSystemNoise (fun _ _ => 0) exampleState () true = some Q1 ∧
      Q1 12 12 = (1 / 500) ^ 2 ∧ Q1 12 13 = 0 ∧ Q1 12 14 = 0 ∧
      Q1 13 12 = 0 ∧ Q1 13 13 = (1 / 500) ^ 2 ∧ Q1 13 14 = 0 ∧
      Q1 14 12 = 0 ∧ Q1 14 13 = 0 ∧ Q1 14 14 = (1 / 500) ^ 2) ∧
    (∃ Q1, exampleAccelerometerModel.getSystemNoise (fun _ _ => 0) exampleState () true
        = some Q1 ∧
      Q1 9 9 = (1 / 1000) ^ 2 ∧ Q1 9 10 = 0 ∧ Q1 9 11 = 0 ∧
      Q1 10 9 = 0 ∧ Q1 10 10 = (1 / 1000) ^ 2 ∧ Q1 10 11 = 0 ∧
      Q1 11 9 = 0 ∧ Q1 11 10 = 0 ∧ Q1 11 11 = (1 / 1000) ^ 2) := by
  obtain ⟨⟨G, hG, -, hGd⟩, ⟨C, hC, -, hCd⟩⟩ :=
    getSystemNoise_block_diagonal exampleGyroModel exampleAccelerometerModel (fun _ _ => 0)
      exampleState () exampleGyroBias exampleAccelBias rfl rfl
  have hg := hGd (fun _ _ _ => rfl)
  have hc := hCd (fun _ _ _ => rfl)
  exact ⟨⟨G, hG, hg 0 0, hg 0 1, hg 0 2, hg 1 0, hg 1 1, hg 1 2, hg 2 0, hg 2 1, hg 2 2⟩,
    ⟨C, hC, hc 0 0, hc 0 1, hc 0 2, hc 1 0, hc 1 1, hc 1 2, hc 2 0, hc 2 1, hc 2 2⟩⟩

end NoiseBlockTheorems

/-! ## The orientation cross term and the cross product -/

section CrossProductTheorems

/-- C12, as stated, fails: with the cache `bias_nav_ = (2, 3, 4)` and both
velocity bits set, the velocity-orientation block `M` of the Jacobian maps
`v = (1, 0, 0)` to `(0, -4, 3)`, while `bias_nav_ × v = (0, 4, -3)`. -/
theorem AccelerometerModel.orientation_cross_term_not_right_handed :
    ∃ J, exampleAccelerometerModel.getStateJacobian 128 256 (fun _ _ => 9)
        exampleTurnedState = some J ∧
      RotationMatrix.mulVec (SubState.block ⟨7, 6⟩ ⟨0, 0⟩ J)
        (fun i => if i = 0 then 1 else 0) 1 = -4 ∧
      ColumnVector3.cross exampleAccelerometerModel.bias_nav_
        (fun i => if i = 0 then 1 else 0) 1 = 4 ∧
      RotationMatrix.mulVec (SubState.block ⟨7, 6⟩ ⟨0, 0⟩ J)
          (fun i => if i = 0 then 1 else 0)
        ≠ ColumnVector3.cross exampleAccelerometerModel.bias_nav_
          (fun i => if i = 0 then 1 else 0) := by
  obtain ⟨J, hJ, hori, -, -, -⟩ := AccelerometerModel.getStateJacobian_entries 128 256
    exampleAccelerometerModel (fun _ _ => 9) exampleTurnedState ⟨7, 6⟩ exampleAccelBias ⟨0, 0⟩
    rfl rfl rfl rfl
  have hM : RotationMatrix.mulVec (SubState.block ⟨7, 6⟩ ⟨0, 0⟩ J)
      (fun i => if i = 0 then (1 : ℚ) else 0) 1 = -4 := by
    simp only [RotationMatrix.mulVec, SubState.block]
    rw [hori 1 0, hori 1 1, hori 1 2]
    simp [orientationCrossTerm, exampleAccelerometerModel, exampleTurnedState, exampleState,
      X, Y, Z]
  have hc : ColumnVector3.cross exampleAccelerometerModel.bias_nav_
      (fun i => if i = 0 then (1 : ℚ) else 0) 1 = 4 := by
    simp [ColumnVector3.cross, exampleAccelerometerModel]
  refine ⟨J, hJ, hM, hc, ?_⟩
  intro h
  have h1 := congrFun h 1
  rw [hM, hc] at h1
  norm_num at h1

variable {α : Type} [CommRing α]

/-- C12, amended.  With velocity and orientation present, acceleration absent and
both velocity bits set, the velocity-orientation block `M` of the Jacobian is
the negative of the right-handed cross-product matrix of `bias_nav_`: for
every 3-vector `v`, `M * v = -(bias_nav_ × v) = v × bias_nav_`. -/
theorem AccelerometerModel.orientation_cross_term_cross_product
    (STATE_VELOCITY_XY STATE_VELOCITY_Z : SystemStatus) (m : AccelerometerModel α)
    (A : SystemMatrix α) (state : State α) (velocity bias orientation : SubState)
    (hv : state.velocity = some velocity) (ha : state.acceleration = none)
    (ho : state.orientation = some orientation) (hb : m.bias_ = some bias)
    (hxy : state.getSystemStatus &&& STATE_VELOCITY_XY ≠ 0)
    (hz : state.getSystemStatus &&& STATE_VELOCITY_Z ≠ 0) :
    ∃ J, m.getStateJacobian STATE_VELOCITY_XY STATE_VELOCITY_Z A state = some J ∧
      ∀ (v : ColumnVector3 α) (i : Fin 3),
        RotationMatrix.mulVec (velocity.block orientation J) v i
          = -ColumnVector3.cross m.bias_nav_ v i ∧
        RotationMatrix.mulVec (velocity.block orientation J) v i
          = ColumnVector3.cross v m.bias_nav_ i := by
  obtain ⟨J, hJ, hori, -, -, -⟩ := AccelerometerModel.getStateJacobian_entries
    STATE_VELOCITY_XY STATE_VELOCITY_Z m A state velocity bias orientation hv ha hb ho
  have hen : ∀ i : Fin 3, (if i = Z then state.getSystemStatus &&& STATE_VELOCITY_Z ≠ 0
      else state.getSystemStatus &&& STATE_VELOCITY_XY ≠ 0) := by
    intro i
    split_ifs <;> assumption
  have hM : ∀ i j : Fin 3,
      J (velocity.covarianceIndex + i.val) (orientation.covarianceIndex + j.val)
        = orientationCrossTerm m.bias_nav_ i j := by
    intro i j
    rw [hori i j, if_pos (hen i)]
  refine ⟨J, hJ, ?_⟩
  intro v i
  simp only [RotationMatrix.mulVec, SubState.block]
  rw [hM i 0, hM i 1, hM i 2]
  fin_cases i <;> constructor <;>
    simp [orientationCrossTerm, ColumnVector3.cross, X, Y] <;> ring

/-- C12, amended, at concrete inputs: with the cache `(2, 3, 4)` the block maps
`v = (1, 0, 0)` to `(0, -4, 3)`, which is `v × bias_nav_`. -/
theorem AccelerometerModel.orientation_cross_term_cross_product_witness :
    ∃ J, exampleAccelerometerModel.getStateJacobian 128 256 (fun _ _ => 9)
        exampleTurnedState = some J ∧
      RotationMatrix.mulVec (SubState.block ⟨7, 6⟩ ⟨0, 0⟩ J)
        (fun i => if i = 0 then 1 else 0) 0 = 0 ∧
      RotationMatrix.mulVec (SubState.block ⟨7, 6⟩ ⟨0, 0⟩ J)
        (fun i => if i = 0 then 1 else 0) 1 = -4 ∧
      RotationMatrix.mulVec (SubState.block ⟨7, 6⟩ ⟨0, 0⟩ J)
        (fun i => if i = 0 then 1 else 0) 2 = 3 := by
  obtain ⟨J, hJ, hM⟩ := AccelerometerModel.orientation_cross_term_cross_product 128 256
    exampleAccelerometerModel (fun _ _ => 9) exampleTurnedState ⟨7, 6⟩ exampleAccelBias ⟨0, 0⟩
    rfl rfl rfl rfl (by decide) (by decide)
  refine ⟨J, hJ, ?_, ?_, ?_⟩
  · rw [(hM _ 0).2]
    simp [ColumnVector3.cross, exampleAccelerometerModel]
  · rw [(hM _ 1).2]
    simp [ColumnVector3.cross, exampleAccelerometerModel]
  · rw [(hM _ 2).2]
    simp [ColumnVector3.cross, exampleAccelerometerModel]

end CrossProductTheorems

/-! ## The hooks on a state without orientation block, and the two remaining hooks -/

section PointerTheorems

variable {α : Type} [Ring α]

/-- C13, on the inputs of the claim: with the velocity block present, the
acceleration block absent, at least one velocity bit set and the orientation
block absent, `AccelerometerModel::getStateJacobian` dereferences the null
orientation pointer (line 138 or line 148) and returns no Jacobian, whatever the
model, the rotation and the prior content of `A` are. -/
theorem AccelerometerModel.getStateJacobian_orientation_absent
    (STATE_VELOCITY_XY STATE_VELOCITY_Z : SystemStatus) (m : AccelerometerModel α)
    (A : SystemMatrix α) (state : State α) (velocity : SubState)
    (hv : state.velocity = some velocity) (ha : state.acceleration = none)
    (ho : state.orientation = none)
    (hflag : state.getSystemStatus &&& STATE_VELOCITY_XY ≠ 0 ∨
      state.getSystemStatus &&& STATE_VELOCITY_Z ≠ 0) :
    m.getStateJacobian STATE_VELOCITY_XY STATE_VELOCITY_Z A state = none := by
  by_cases h1 : state.getSystemStatus &&& STATE_VELOCITY_XY = 0
  · have h2 : state.getSystemStatus &&& STATE_VELOCITY_Z ≠ 0 := by
      rcases hflag with h | h
      · exact absurd h1 h
      · exact h
    cases hb : m.bias_ <;>
      simp [AccelerometerModel.getStateJacobian, hv, ha, ho, h1, h2, hb]
  · by_cases h2 : state.getSystemStatus &&& STATE_VELOCITY_Z = 0 <;>
      cases hb : m.bias_ <;>
      simp [AccelerometerModel.getStateJacobian, hv, ha, ho, h1, h2, hb]

/-- C13 at a concrete input: a state with position and velocity blocks only and
the vertical velocity bit set, on which the hook reaches line 148 with the null
orientation pointer. -/
theorem AccelerometerModel.getStateJacobian_orientation_absent_witness :
    exampleVerticalPositionVelocityState.velocity = some ⟨3, 3⟩ ∧
    exampleVerticalPositionVelocityState.acceleration = none ∧
    exampleVerticalPositionVelocityState.orientation = none ∧
    exampleVerticalPositionVelocityState.getSystemStatus &&& 256 ≠ 0 ∧
    exampleAccelerometerModel.getStateJacobian 128 256 (fun _ _ => 0)
      exampleVerticalPositionVelocityState = none :=
  ⟨rfl, rfl, rfl, by decide,
    AccelerometerModel.getStateJacobian_orientation_absent 128 256 exampleAccelerometerModel
      (fun _ _ => 0) exampleVerticalPositionVelocityState ⟨3, 3⟩ rfl rfl rfl
      (Or.inr (by decide))⟩

/-- C14. `AccelerometerModel::prepareUpdate` of a registered model does not fail:
for every state and every `dt` it returns `true`, the cache of the model after
the call is `R(state) * b(state)` with `b` the current value of the bias block,
the other members of the model are as before, and the state is returned as it
was. -/
theorem AccelerometerModel.prepareUpdate_succeeds (m : AccelerometerModel α)
    (state : State α) (dt : α) (bias : SubState) (hb : m.bias_ = some bias) :
    ∃ m1, m.prepareUpdate state dt = some (true, m1, state) ∧
      m1.bias_nav_ = state.R.mulVec (bias.vector state) ∧
      m1.bias_ = m.bias_ ∧
      m1.acceleration_stddev_ = m.acceleration_stddev_ ∧
      m1.acceleration_drift_ = m.acceleration_drift_ :=
  ⟨{ m with bias_nav_ := state.R.mulVec (bias.vector state) },
    by simp [AccelerometerModel.prepareUpdate, hb], rfl, rfl, rfl, rfl⟩

/-- C14 at concrete inputs: with a quarter turn about Z and the bias
`(1/10, -1/5, 1/20)` the call succeeds for `dt = -1` and for `dt = 0`, the cache
becomes `(1/5, 1/10, 1/20)` and the state is returned as it was. -/
theorem AccelerometerModel.prepareUpdate_succeeds_witness :
    (∃ m1, exampleAccelerometerModel.prepareUpdate exampleTurnedState (-1)
        = some (true, m1, exampleTurnedState) ∧
      m1.bias_nav_ 0 = 1 / 5 ∧ m1.bias_nav_ 1 = 1 / 10 ∧ m1.bias_nav_ 2 = 1 / 20) ∧
    (∃ m1, exampleAccelerometerModel.prepareUpdate exampleTurnedState 0
        = some (true, m1, exampleTurnedState) ∧
      m1.bias_nav_ 0 = 1 / 5 ∧ m1.bias_nav_ 1 = 1 / 10 ∧ m1.bias_nav_ 2 = 1 / 20) := by
  have h0 : RotationMatrix.mulVec exampleTurnedState.R
      (exampleAccelBias.vector exampleTurnedState) 0 = 1 / 5 := by
    simp [RotationMatrix.mulVec, SubState.vector, exampleTurnedState, exampleState,
      exampleAccelBias]
    norm_num
  have h1 : RotationMatrix.mulVec exampleTurnedState.R
      (exampleAccelBias.vector exampleTurnedState) 1 = 1 / 10 := by
    simp [RotationMatrix.mulVec, SubState.vector, exampleTurnedState, exampleState,
      exampleAccelBias]
  have h2 : RotationMatrix.mulVec exampleTurnedState.R
      (exampleAccelBias.vector exampleTurnedState) 2 = 1 / 20 := by
    simp [RotationMatrix.mulVec, SubState.vector, exampleTurnedState, exampleState,
      exampleAccelBias]
  constructor
  · obtain ⟨m1, hp, hnav, -⟩ := AccelerometerModel.prepareUpdate_succeeds
      exampleAccelerometerModel exampleTurnedState (-1) exampleAccelBias rfl
    exact ⟨m1, hp, by rw [hnav]; exact h0, by rw [hnav]; exact h1, by rw [hnav]; exact h2⟩
  · obtain ⟨m1, hp, hnav, -⟩ := AccelerometerModel.prepareUpdate_succeeds
      exampleAccelerometerModel exampleTurnedState 0 exampleAccelBias rfl
    exact ⟨m1, hp, by rw [hnav]; exact h0, by rw [hnav]; exact h1, by rw [hnav]; exact h2⟩

end PointerTheorems

section InitTheorems

variable {α : Type}

/-- C15. `init` mirrors the registration, for both models: the hook asks
`addSubState` for a block named `systemName` followed by `_bias`, returns `true`
exactly when `addSubState` returns a block and `false` exactly when it returns
none, the bias pointer of the model after the call is what `addSubState`
returned (the returned block on success), the parameters of the model are as
before, and the state after the call is the one `addSubState` left. -/
theorem init_mirrors_registration
    (addSubState : State α → String → Option SubState × State α)
    (g : GyroModel α) (a : AccelerometerModel α) (systemName : String) (state : State α) :
    (((g.init addSubState systemName state).1 = true ↔
        ∃ block, (addSubState state (systemName ++ "_bias")).1 = some block) ∧
      ((g.init addSubState systemName state).1 = false ↔
        (addSubState state (systemName ++ "_bias")).1 = none) ∧
      (∀ block, (addSubState state (systemName ++ "_bias")).1 = some block →
        (g.init addSubState systemName state).1 = true ∧
        (g.init addSubState systemName state).2.1.bias_ = some block) ∧
      (g.init addSubState systemName state).2.1.bias_
        = (addSubState state (systemName ++ "_bias")).1 ∧
      (g.init addSubState systemName state).2.1.rate_stddev_ = g.rate_stddev_ ∧
      (g.init addSubState systemName state).2.1.rate_drift_ = g.rate_drift_ ∧
      (g.init addSubState systemName state).2.2
        = (addSubState state (systemName ++ "_bias")).2) ∧
    (((a.init addSubState systemName state).1 = true ↔
        ∃ block, (addSubState state (systemName ++ "_bias")).1 = some block) ∧
      ((a.init addSubState systemName state).1 = false ↔
        (addSubState state (systemName ++ "_bias")).1 = none) ∧
      (∀ block, (addSubState state (systemName ++ "_bias")).1 = some block →
        (a.init addSubState systemName state).1 = true ∧
        (a.init addSubState systemName state).2.1.bias_ = some block) ∧
      (a.init addSubState systemName state).2.1.bias_
        = (addSubState state (systemName ++ "_bias")).1 ∧
      (a.init addSubState systemName state).2.1.acceleration_stddev_
        = a.acceleration_stddev_ ∧
      (a.init addSubState systemName state).2.1.acceleration_drift_
        = a.acceleration_drift_ ∧
      (a.init addSubState systemName state).2.1.bias_nav_ = a.bias_nav_ ∧
      (a.init addSubState systemName state).2.2
        = (addSubState state (systemName ++ "_bias")).2) := by
  constructor
  · refine ⟨?_, ?_, ?_, rfl, rfl, rfl, rfl⟩
    · simp only [GyroModel.init]
      exact Option.isSome_iff_exists
    · simp only [GyroModel.init]
      cases (addSubState state (systemName ++ "_bias")).1 <;> simp
    · intro block h
      simp only [GyroModel.init]
      rw [h]
      exact ⟨rfl, rfl⟩
  · refine ⟨?_, ?_, ?_, rfl, rfl, rfl, rfl, rfl⟩
    · simp only [AccelerometerModel.init]
      exact Option.isSome_iff_exists
    · simp only [AccelerometerModel.init]
      cases (addSubState state (systemName ++ "_bias")).1 <;> simp
    · intro block h
      simp only [AccelerometerModel.init]
      rw [h]
      exact ⟨rfl, rfl⟩

/-- C15 at concrete inputs: a registration that hands out the block at 13 under
the name `gyro_bias` makes `init` of the gyro model of the system `gyro` succeed
with that block as its bias pointer; a registration without a free block makes
`init` of both models fail and leaves their bias pointers null. -/
theorem init_mirrors_registration_witness :
    (exampleGyroModel.init exampleAddSubState exampleSystemName exampleState).1 = true ∧
    (exampleGyroModel.init exampleAddSubState exampleSystemName exampleState).2.1.bias_
      = some ⟨13, 12⟩ ∧
    (exampleGyroModel.init exampleFullAddSubState exampleSystemName exampleState).1 = false ∧
    (exampleGyroModel.init exampleFullAddSubState exampleSystemName exampleState).2.1.bias_
      = none ∧
    (exampleAccelerometerModel.init exampleFullAddSubState exampleSystemName
      exampleState).1 = false ∧
    (exampleAccelerometerModel.init exampleFullAddSubState exampleSystemName
      exampleState).2.1.bias_ = none := by
  have hg := (init_mirrors_registration exampleAddSubState exampleGyroModel
    exampleAccelerometerModel exampleSystemName exampleState).1
  have hf := init_mirrors_registration exampleFullAddSubState exampleGyroModel
    exampleAccelerometerModel exampleSystemName exampleState
  have hreg : (exampleAddSubState exampleState (exampleSystemName ++ "_bias")).1
      = some ⟨13, 12⟩ := by
    simp [exampleAddSubState, exampleSystemName, exampleGyroBias]
  refine ⟨(hg.2.2.1 _ hreg).1, (hg.2.2.1 _ hreg).2, hf.1.2.1.mpr rfl, ?_,
    hf.2.2.1.mpr rfl, ?_⟩
  · rw [hf.1.2.2.2.1]
    rfl
  · rw [hf.2.2.2.2.1]
    rfl

end InitTheorems

/-! ## The derivative, the Jacobian and the cache -/

section ConsistencyTheorems

variable {α : Type} [Ring α]

/-- The gyro derivative is the bias Jacobian applied to the bias: with the
orientation block present and the model registered, the orientation slice of
`getDerivative` is the orientation-bias block of `getStateJacobian` times the
bias, whether the rate block is present or not. -/
theorem GyroModel.gyro_derivative_eq_jacobian_mulVec (m : GyroModel α) (x_dot : StateVector α)
    (A : SystemMatrix α) (state : State α) (orientation bias : SubState)
    (ho : state.orientation = some orientation) (hb : m.bias_ = some bias) :
    ∃ r J, m.getDerivative x_dot state = some r ∧ m.getStateJacobian A state = some J ∧
      ∀ i : Fin 3, r (orientation.vectorIndex + i.val)
        = RotationMatrix.mulVec (orientation.block bias J) (bias.vector state) i := by
  cases hr : state.rate with
  | none =>
    refine ⟨orientation.segmentSetHead3 StateVector.setZero
        (state.R.mulVec (bias.vector state)),
      orientation.blockAssign bias SystemMatrix.setZero state.R,
      by simp [GyroModel.getDerivative, ho, hr, hb],
      by simp [GyroModel.getStateJacobian, ho, hr, hb], ?_⟩
    intro i
    have hblock : orientation.block bias
        (orientation.blockAssign bias (SystemMatrix.setZero : SystemMatrix α) state.R)
        = state.R := by
      funext a b
      exact SubState.blockAssign_self _ _ _ _ a b
    rw [hblock]
    fin_cases i <;> simp [SubState.segmentSetHead3, SubState.segmentSet]
  | some rate =>
    refine ⟨StateVector.setZero, SystemMatrix.setZero,
      by simp [GyroModel.getDerivative, ho, hr],
      by simp [GyroModel.getStateJacobian, ho, hr], ?_⟩
    intro i
    simp [RotationMatrix.mulVec, SubState.block, StateVector.setZero, SystemMatrix.setZero]

/-- The accelerometer derivative is the bias Jacobian applied to the bias: with the
velocity and orientation blocks present, the model registered and the bias
block on other columns than the orientation block, after `prepareUpdate` on
the same state the velocity slice of `getDerivative` is the velocity-bias block
of `getStateJacobian` times the bias, for every combination of the status bits
and whether the acceleration block is present or not. -/
theorem AccelerometerModel.accelerometer_derivative_eq_jacobian_mulVec
    (STATE_VELOCITY_XY STATE_VELOCITY_Z : SystemStatus) (m : AccelerometerModel α)
    (x_dot : StateVector α) (A : SystemMatrix α) (s : State α) (dt : α)
    (velocity bias orientation : SubState)
    (hv : s.velocity = some velocity) (hb : m.bias_ = some bias)
    (ho : s.orientation = some orientation)
    (hd : orientation.covarianceIndex + 3 ≤ bias.covarianceIndex ∨
      bias.covarianceIndex + 3 ≤ orientation.covarianceIndex) :
    ∃ m1 r J, m.prepareUpdate s dt = some (true, m1, s) ∧
      m1.getDerivative STATE_VELOCITY_XY STATE_VELOCITY_Z x_dot s = some r ∧
      m1.getStateJacobian STATE_VELOCITY_XY STATE_VELOCITY_Z A s = some J ∧
      ∀ i : Fin 3, r (velocity.vectorIndex + i.val)
        = RotationMatrix.mulVec (velocity.block bias J) (bias.vector s) i := by
  cases ha : s.acceleration with
  | none =>
    obtain ⟨r, hr, hval, -⟩ := AccelerometerModel.getDerivative_entries
      STATE_VELOCITY_XY STATE_VELOCITY_Z
      ({ m with bias_nav_ := s.R.mulVec (bias.vector s) } : AccelerometerModel α) x_dot s
      velocity hv ha
    obtain ⟨J, hJ, -, hbias, -, -⟩ := AccelerometerModel.getStateJacobian_entries
      STATE_VELOCITY_XY STATE_VELOCITY_Z
      ({ m with bias_nav_ := s.R.mulVec (bias.vector s) } : AccelerometerModel α) A s
      velocity bias orientation hv ha hb ho
    refine ⟨{ m with bias_nav_ := s.R.mulVec (bias.vector s) }, r, J,
      by simp [AccelerometerModel.prepareUpdate, hb], hr, hJ, ?_⟩
    intro i
    rw [hval i]
    simp only [RotationMatrix.mulVec, SubState.block]
    rw [hbias hd i 0, hbias hd i 1, hbias hd i 2]
    split_ifs <;> simp
  | some acceleration =>
    refine ⟨{ m with bias_nav_ := s.R.mulVec (bias.vector s) }, StateVector.setZero,
      SystemMatrix.setZero, by simp [AccelerometerModel.prepareUpdate, hb],
      by simp [AccelerometerModel.getDerivative, hv, ha],
      by simp [AccelerometerModel.getStateJacobian, hv, ha], ?_⟩
    intro i
    simp [RotationMatrix.mulVec, SubState.block, StateVector.setZero, SystemMatrix.setZero]

/-- C16, at the input on which the code fails: a state with position and velocity
blocks only and the horizontal velocity bit set.  After `prepareUpdate`, which
caches `(1/5, 1/10, 1/20)`, `getDerivative` returns a velocity slice (entries
3..5) that starts with `1/5` and `1/10`, while `getStateJacobian` dereferences
the null orientation pointer at line 138 and returns no Jacobian whose
velocity-bias block the slice could be compared with. -/
theorem AccelerometerModel.derivative_without_jacobian :
    ∃ m1 r, exampleAccelerometerModel.prepareUpdate exampleHorizontalPositionVelocityState 0
        = some (true, m1, exampleHorizontalPositionVelocityState) ∧
      m1.getDerivative 128 256 (fun _ => 0) exampleHorizontalPositionVelocityState
        = some r ∧
      r 3 = 1 / 5 ∧ r 4 = 1 / 10 ∧ r 5 = 0 ∧
      m1.getStateJacobian 128 256 (fun _ _ => 0) exampleHorizontalPositionVelocityState
        = none := by
  obtain ⟨r, hr, hval, -⟩ := AccelerometerModel.getDerivative_entries 128 256
    ({ exampleAccelerometerModel with
        bias_nav_ := exampleHorizontalPositionVelocityState.R.mulVec
          (exampleAccelBias.vector exampleHorizontalPositionVelocityState) } :
      AccelerometerModel ℚ)
    (fun _ => 0) exampleHorizontalPositionVelocityState ⟨3, 3⟩ rfl rfl
  refine ⟨{ exampleAccelerometerModel with
      bias_nav_ := exampleHorizontalPositionVelocityState.R.mulVec
        (exampleAccelBias.vector exampleHorizontalPositionVelocityState) }, r,
    by simp [AccelerometerModel.prepareUpdate, exampleAccelerometerModel], hr, ?_, ?_, ?_, ?_⟩
  · rw [show (3 : Nat) = (⟨3, 3⟩ : SubState).vectorIndex + (0 : Fin 3).val from rfl, hval 0]
    simp [RotationMatrix.mulVec, SubState.vector, exampleHorizontalPositionVelocityState,
      examplePositionVelocityState, exampleTurnedState, exampleState, exampleAccelBias, Z]
    norm_num
  · rw [show (4 : Nat) = (⟨3, 3⟩ : SubState).vectorIndex + (1 : Fin 3).val from rfl, hval 1]
    simp [RotationMatrix.mulVec, SubState.vector, exampleHorizontalPositionVelocityState,
      examplePositionVelocityState, exampleTurnedState, exampleState, exampleAccelBias, Z]
  · rw [show (5 : Nat) = (⟨3, 3⟩ : SubState).vectorIndex + (2 : Fin 3).val from rfl, hval 2]
    exact if_neg (by decide)
  · simp [AccelerometerModel.getStateJacobian, exampleHorizontalPositionVelocityState,
      examplePositionVelocityState, exampleTurnedState, exampleState,
      exampleAccelerometerModel]

/-- C17. The accelerometer outputs see the bias only through the cache.
`getDerivative` returns the same `x_dot` for two models with the same cache on
two states with the same velocity pointer, the same presence of the
acceleration block and the same status, whatever their means, rotations and
prior contents of `x_dot` are.  After `prepareUpdate` on `s1`, `getDerivative`
on `s2` (velocity present, acceleration absent) fills the velocity slice with
the components of `R(s1) * b(s1)` under the status bits of `s2`, while the
velocity-bias block of `getStateJacobian` on `s2` holds the rows of `R(s2)`. -/
theorem AccelerometerModel.outputs_see_cache_only
    (STATE_VELOCITY_XY STATE_VELOCITY_Z : SystemStatus) (m : AccelerometerModel α)
    (s1 s2 : State α) (dt : α) :
    (∀ (m2 : AccelerometerModel α) (s3 : State α) (x2 x3 : StateVector α),
      m2.bias_nav_ = m.bias_nav_ → s3.velocity = s2.velocity →
      s3.acceleration.isSome = s2.acceleration.isSome →
      s3.getSystemStatus = s2.getSystemStatus →
      m2.getDerivative STATE_VELOCITY_XY STATE_VELOCITY_Z x3 s3
        = m.getDerivative STATE_VELOCITY_XY STATE_VELOCITY_Z x2 s2) ∧
    (∀ (velocity bias orientation : SubState) (x_dot : StateVector α) (A : SystemMatrix α),
      m.bias_ = some bias → s2.velocity = some velocity → s2.acceleration = none →
      s2.orientation = some orientation →
      (orientation.covarianceIndex + 3 ≤ bias.covarianceIndex ∨
        bias.covarianceIndex + 3 ≤ orientation.covarianceIndex) →
      ∃ m1 r J, m.prepareUpdate s1 dt = some (true, m1, s1) ∧
        m1.bias_nav_ = s1.R.mulVec (bias.vector s1) ∧
        m1.getDerivative STATE_VELOCITY_XY STATE_VELOCITY_Z x_dot s2 = some r ∧
        (∀ i : Fin 3, r (velocity.vectorIndex + i.val)
          = if (if i = Z then s2.getSystemStatus &&& STATE_VELOCITY_Z ≠ 0
                else s2.getSystemStatus &&& STATE_VELOCITY_XY ≠ 0)
            then s1.R.mulVec (bias.vector s1) i else 0) ∧
        m1.getStateJacobian STATE_VELOCITY_XY STATE_VELOCITY_Z A s2 = some J ∧
        (∀ i j : Fin 3, velocity.block bias J i j
          = if (if i = Z then s2.getSystemStatus &&& STATE_VELOCITY_Z ≠ 0
                else s2.getSystemStatus &&& STATE_VELOCITY_XY ≠ 0)
            then s2.R i j else 0)) := by
  constructor
  · intro m2 s3 x2 x3 hnav hvel hacc hstat
    simp only [AccelerometerModel.getDerivative, hnav, hvel, hacc, hstat]
  · intro velocity bias orientation x_dot A hb hv ha ho hd
    obtain ⟨r, hr, hval, -⟩ := AccelerometerModel.getDerivative_entries
      STATE_VELOCITY_XY STATE_VELOCITY_Z
      ({ m with bias_nav_ := s1.R.mulVec (bias.vector s1) } : AccelerometerModel α) x_dot s2
      velocity hv ha
    obtain ⟨J, hJ, -, hbias, -, -⟩ := AccelerometerModel.getStateJacobian_entries
      STATE_VELOCITY_XY STATE_VELOCITY_Z
      ({ m with bias_nav_ := s1.R.mulVec (bias.vector s1) } : AccelerometerModel α) A s2
      velocity bias orientation hv ha hb ho
    exact ⟨{ m with bias_nav_ := s1.R.mulVec (bias.vector s1) }, r, J,
      by simp [AccelerometerModel.prepareUpdate, hb], rfl, hr, hval, hJ, hbias hd⟩

/-- C17 at concrete inputs: `exampleState` has the identity rotation and
`exampleTurnedState` a quarter turn about Z, with the same blocks, status and
bias `(1/10, -1/5, 1/20)`.  `getDerivative` with the same cache agrees on the
two states.  After `prepareUpdate` on the first, `getDerivative` on the second
fills the velocity slice 7..9 with `(1/10, -1/5, 1/20)`, the rotated bias of
the first state, whereas the rotated bias of the second starts with `1/5`; the
velocity-bias block (rows 6..8, columns 9..11) of `getStateJacobian` on the
second holds the quarter turn. -/
theorem AccelerometerModel.outputs_see_cache_only_witness :
    exampleAccelerometerModel.getDerivative 128 256 (fun _ => 9) exampleState
      = exampleAccelerometerModel.getDerivative 128 256 (fun _ => 0) exampleTurnedState ∧
    (∃ m1 r J, exampleAccelerometerModel.prepareUpdate exampleState 0
        = some (true, m1, exampleState) ∧
      m1.getDerivative 128 256 (fun _ => 9) exampleTurnedState = some r ∧
      r 7 = 1 / 10 ∧ r 8 = -1 / 5 ∧ r 9 = 1 / 20 ∧
      RotationMatrix.mulVec exampleTurnedState.R
        (exampleAccelBias.vector exampleTurnedState) 0 = 1 / 5 ∧
      m1.getStateJacobian 128 256 (fun _ _ => 9) exampleTurnedState = some J ∧
      J 6 9 = 0 ∧ J 6 10 = -1 ∧ J 7 9 = 1 ∧ J 8 11 = 1) := by
  have h := AccelerometerModel.outputs_see_cache_only 128 256 exampleAccelerometerModel
    exampleState exampleTurnedState 0
  refine ⟨h.1 exampleAccelerometerModel exampleState (fun _ => 0) (fun _ => 9) rfl rfl rfl rfl,
    ?_⟩
  obtain ⟨m1, r, J, hp, -, hr, hval, hJ, hblock⟩ :=
    h.2 ⟨7, 6⟩ exampleAccelBias ⟨0, 0⟩ (fun _ => 9) (fun _ _ => 9) rfl rfl rfl rfl
      (Or.inl (by decide))
  have hen : ∀ i : Fin 3, (if i = Z then exampleTurnedState.getSystemStatus &&& 256 ≠ 0
      else exampleTurnedState.getSystemStatus &&& 128 ≠ 0) := by
    decide
  refine ⟨m1, r, J, hp, hr, ?_, ?_, ?_, ?_, hJ, ?_, ?_, ?_, ?_⟩
  · rw [show (7 : Nat) = (⟨7, 6⟩ : SubState).vectorIndex + (0 : Fin 3).val from rfl, hval 0,
      if_pos (hen 0)]
    simp [RotationMatrix.mulVec, SubState.vector, exampleState, exampleAccelBias]
  · rw [show (8 : Nat) = (⟨7, 6⟩ : SubState).vectorIndex + (1 : Fin 3).val from rfl, hval 1,
      if_pos (hen 1)]
    simp [RotationMatrix.mulVec, SubState.vector, exampleState, exampleAccelBias]
  · rw [show (9 : Nat) = (⟨7, 6⟩ : SubState).vectorIndex + (2 : Fin 3).val from rfl, hval 2,
      if_pos (hen 2)]
    simp [RotationMatrix.mulVec, SubState.vector, exampleState, exampleAccelBias]
  · simp [RotationMatrix.mulVec, SubState.vector, exampleTurnedState, exampleState,
      exampleAccelBias]
    norm_num
  · have h00 := hblock 0 0
    rw [if_pos (hen 0)] at h00
    exact h00
  · have h01 := hblock 0 1
    rw [if_pos (hen 0)] at h01
    exact h01
  · have h10 := hblock 1 0
    rw [if_pos (hen 1)] at h10
    exact h10
  · have h22 := hblock 2 2
    rw [if_pos (hen 2)] at h22
    exact h22

end ConsistencyTheorems

end hector_pose_estimation
